import Mathlib

/-!
Shallow embedding of the ticket-sale core of the events backend: the purchase
route (POST /api/events/:id/purchase) and the transfer route
(POST /api/tickets/transfer), together with the relational store state they
read and write.  Every definition mirrors the JavaScript source; the store is
modeled as lists of rows, the transactional database as all-or-nothing state
passing (Except for aborted transactions), and JavaScript number arithmetic on
prices as IEEE-754 binary64 round-to-nearest-even arithmetic on rationals.
Database-generated row ids are modeled by a per-store counter, and the
timestamp-plus-randomness QR code synthesis by an entropy parameter
(a function from the index of the synthesized code to its string value).
-/

/-! ### IEEE-754 binary64 model for JavaScript number addition

JavaScript `+` on numbers is IEEE-754 binary64 addition: the exact rational
sum rounded to 53 significant bits, round-to-nearest with ties to even.  The
model below implements that rounding on rationals for the normal range of
binary64 (which covers all price arithmetic in the source); overflow to
infinity and subnormal underflow are outside the range exercised here. -/

/-- Fuel-driven floor of the base-2 logarithm of a natural number.  Any fuel
of at least the bit length of the input yields the exact value; the fixed
fuel used below covers the full binary64 exponent range. -/
def log2Fuel : Nat → Nat → Nat
  | 0, _ => 0
  | fuel + 1, n => if n ≤ 1 then 0 else log2Fuel fuel (n / 2) + 1

/-- Multiply a rational by an integer power of two. -/
def mulPow2 (q : ℚ) : ℤ → ℚ
  | Int.ofNat n => q * (2 : ℚ) ^ n
  | Int.negSucc n => q / (2 : ℚ) ^ (n + 1)

/-- Floor of the base-2 logarithm of a positive rational. -/
def qlog2 (q : ℚ) : ℤ :=
  let k : ℤ := (log2Fuel 4096 q.num.toNat : ℤ) - (log2Fuel 4096 q.den : ℤ)
  if q < mulPow2 1 k then k - 1 else k

/-- Round a rational to the nearest integer, ties to even. -/
def roundHalfEven (x : ℚ) : ℤ :=
  let f := Rat.floor x
  let r := x - (f : ℚ)
  if r < 1 / 2 then f
  else if 1 / 2 < r then f + 1
  else if f % 2 = 0 then f else f + 1

/-- Round a positive rational to 53 significant bits (nearest, ties to even). -/
def f64roundPos (a : ℚ) : ℚ :=
  let e := qlog2 a
  mulPow2 (roundHalfEven (mulPow2 a (52 - e)) : ℚ) (e - 52)

/-- Round a rational to the binary64 grid (nearest, ties to even). -/
def f64round (q : ℚ) : ℚ :=
  if q = 0 then 0 else if q < 0 then - f64roundPos (-q) else f64roundPos q

/-- JavaScript number addition: the exact sum, rounded to binary64. -/
def f64add (a b : ℚ) : ℚ := f64round (a + b)

/-! ### Data model

Rows of the Prisma models touched by the two routes.  Status fields are the
strings the JavaScript compares against; fields that no claim or route reads
(colors, layout geometry, schedule windows, timestamps) are elided. -/

/-- An Event row.  Only existence (lookup by id) is read by the two routes. -/
structure Event where
  id : String
deriving DecidableEq, Repr

/-- An EventZone row: a capacity-bounded sales pool.  `capacity` is nullable
in the schema (`null` meaning unbounded). -/
structure Zone where
  id : String
  eventId : String
  name : String
  capacity : Option ℤ
deriving DecidableEq, Repr

/-- An EventSeat row: an individually sellable unit. -/
structure Seat where
  id : String
  eventId : String
  zoneId : String
  rowLabel : String
  colLabel : String
  status : String
  holderName : Option String
  ticketCode : Option String
deriving DecidableEq, Repr

/-- A TicketPurchase row: the billing record of one checkout. -/
structure TicketPurchase where
  id : String
  eventId : String
  billingName : String
  billingEmail : String
  billingPhone : String
  billingDocId : String
  totalAmount : ℚ
deriving DecidableEq, Repr

/-- A Ticket row: the sellable artifact. -/
structure Ticket where
  id : String
  eventId : String
  zoneId : String
  seatId : Option String
  purchaseId : String
  customerName : String
  customerEmail : String
  ownerName : String
  ownerEmail : String
  ownerPhone : Option String
  ownerDocId : Option String
  price : ℚ
  status : String
  qrCode : String
deriving DecidableEq, Repr

/-- A TicketTransfer row: one append-only ownership-change audit record. -/
structure TicketTransfer where
  ticketId : String
  previousOwnerName : String
  previousOwnerEmail : String
  newOwnerName : String
  newOwnerEmail : String
deriving DecidableEq, Repr

/-- The relational store.  `nextId` models the database id generator for
rows created by the two routes. -/
structure Store where
  events : List Event
  zones : List Zone
  seats : List Seat
  tickets : List Ticket
  purchases : List TicketPurchase
  transfers : List TicketTransfer
  nextId : Nat
deriving DecidableEq, Repr

/-- A database-generated row id (cuid in the source), modeled injectively
from the store counter. -/
def genId (n : Nat) : String := "id-" ++ toString n

/-- One cart item of the purchase body: `{ id, type, zoneId, price }`.
`type` is the string the source compares against ("seat" or "general");
`id` is the seat id and is only read for seat-type items. -/
structure Item where
  id : String
  type : String
  zoneId : String
  price : ℚ
deriving DecidableEq, Repr

/-- The customer contact bundle of the purchase body. -/
structure Customer where
  fullName : String
  email : String
  phone : Option String
  docId : Option String
deriving DecidableEq, Repr

/-- The new-owner contact bundle of the transfer body. -/
structure NewOwner where
  name : String
  email : String
  phone : Option String
  docId : Option String
deriving DecidableEq, Repr

/-- JavaScript `x || ''` on an optional string field. -/
def jsOrEmpty : Option String → String
  | some s => if s = "" then "" else s
  | none => ""

/-- JavaScript `x || null` on an optional string field. -/
def jsOrNull : Option String → Option String
  | some s => if s = "" then none else some s
  | none => none

/-- JavaScript truthiness of an optional string (undefined and the empty
string are falsy). -/
def jsTruthy : Option String → Bool
  | some s => !(s == "")
  | none => false

/-- An HTTP response of the two routes: an error status with the message
string the route serializes, or the success payload. -/
inductive Response
  | err (status : Nat) (msg : String)
  | purchaseOk (tickets : List Ticket)
  | transferOk (ticket : Ticket)
deriving DecidableEq, Repr

/-- HTTP status code of a response (res.json defaults to 200). -/
def Response.statusCode : Response → Nat
  | .err s _ => s
  | .purchaseOk _ => 200
  | .transferOk _ => 200

/-- Whether a response is a success payload. -/
def Response.isOk : Response → Bool
  | .err _ _ => false
  | .purchaseOk _ => true
  | .transferOk _ => true

/-- Tickets carried by a successful purchase response. -/
def Response.ticketsOf : Response → List Ticket
  | .purchaseOk ts => ts
  | _ => []

/-! ### Purchase route (POST /api/events/:id/purchase) -/

/-- Error message of the capacity pre-check, naming the zone, the remaining
count and the requested count. -/
def capacityMsg (zoneName : String) (remaining : ℤ) (requested : Nat) : String :=
  "Zona " ++ zoneName ++ ": Solo quedan " ++ toString remaining ++
    " boletos disponibles (solicitados: " ++ toString requested ++ ")"

/-- Error message when a zone referenced by a general item is absent. -/
def zoneNotFoundMsg (zoneId : String) : String :=
  "Zona no encontrada (ID: " ++ zoneId ++ ")"

/-- Error message when a requested seat row is absent.  When the length
check fires without a genuinely missing id (duplicate requested ids), the
source interpolates `undefined`. -/
def seatNotFoundMsg (missingId : Option String) : String :=
  "Seat " ++ (match missingId with | some i => i | none => "undefined") ++ " not found"

/-- Error message when a fetched seat is not AVAILABLE. -/
def seatConflictMsg (rowLabel colLabel : String) : String :=
  "Seat " ++ rowLabel ++ colLabel ++ " is no longer available"

/-- One step of the `zoneCounts[item.zoneId] = (zoneCounts[item.zoneId] || 0) + 1`
accumulation: increment the entry of a key, appending it if absent
(JavaScript object keys keep first-insertion order). -/
def bumpZone : List (String × Nat) → String → List (String × Nat)
  | [], z => [(z, 1)]
  | (k, n) :: rest, z =>
      if k = z then (k, n + 1) :: rest else (k, n) :: bumpZone rest z

/-- The per-zone requested quantities of the general-type items of a cart,
in first-occurrence order (source lines: the zoneCounts loop). -/
def zoneCountsList (items : List Item) : List (String × Nat) :=
  items.foldl (fun acc it => if it.type == "general" then bumpZone acc it.zoneId else acc) []

/-- Number of Ticket rows referencing a zone, any status (this is the
`_count: { select: { tickets: true } }` the pre-check reads). -/
def ticketCountZone (s : Store) (zoneId : String) : Nat :=
  (s.tickets.filter (fun t => t.zoneId == zoneId)).length

/-- Number of non-cancelled Ticket rows referencing a zone (the quantity the
specification states the capacity invariant about). -/
def noncancelledCountZone (s : Store) (zoneId : String) : Nat :=
  ((s.tickets.filter (fun t => t.zoneId == zoneId)).filter
    (fun t => !(t.status == "CANCELLED"))).length

/-- Number of general-type items of a cart requesting a given zone (the
quantity the grouping loop accumulates per zone). -/
def requestedGeneral (items : List Item) (zid : String) : Nat :=
  (items.filter (fun i => i.type == "general" && i.zoneId == zid)).length

/-- The capacity pre-check loop over the zoneCounts entries: look up each
referenced zone, and abort if its all-status ticket count plus the requested
quantity exceeds a non-null capacity (source lines 360-378). -/
def capacityCheckGo (s : Store) : List (String × Nat) → Except String Unit
  | [] => Except.ok ()
  | (zid, cnt) :: rest =>
      match s.zones.find? (fun z => z.id == zid) with
      | none => Except.error (zoneNotFoundMsg zid)
      | some z =>
          match z.capacity with
          | some cap =>
              if cap < (ticketCountZone s zid : ℤ) + cnt then
                Except.error (capacityMsg z.name (max 0 (cap - ticketCountZone s zid)) cnt)
              else capacityCheckGo s rest
          | none => capacityCheckGo s rest

/-- The capacity pre-check of a cart (source step 1). -/
def capacityCheck (s : Store) (items : List Item) : Except String Unit :=
  capacityCheckGo s (zoneCountsList items)

/-- The seat-type items of a cart, in input order. -/
def seatItemsOf (items : List Item) : List Item :=
  items.filter (fun i => i.type == "seat")

/-- The general-type items of a cart, in input order. -/
def generalItemsOf (items : List Item) : List Item :=
  items.filter (fun i => i.type == "general")

/-- The requested seat ids (`seatItems.map(i => i.id)`). -/
def seatIdsOf (items : List Item) : List String :=
  (seatItemsOf items).map (fun i => i.id)

/-- The single batched seat fetch
(`findMany({ where: { id: { in: seatIds } } })`), in store row order. -/
def fetchedSeats (s : Store) (seatIds : List String) : List Seat :=
  s.seats.filter (fun st => seatIds.contains st.id)

/-- The Ticket row staged for a seat-type item (source lines 438-452). -/
def mkSeatTicket (eid purchaseId : String) (c : Customer) (it : Item)
    (tid qr : String) : Ticket :=
  { id := tid, eventId := eid, zoneId := it.zoneId, seatId := some it.id,
    purchaseId := purchaseId, customerName := c.fullName, customerEmail := c.email,
    ownerName := c.fullName, ownerEmail := c.email,
    ownerPhone := some (jsOrEmpty c.phone), ownerDocId := some (jsOrEmpty c.docId),
    price := it.price, status := "VALID", qrCode := qr }

/-- The Ticket row staged for a general-type item (source lines 459-472). -/
def mkGeneralTicket (eid purchaseId : String) (c : Customer) (it : Item)
    (tid qr : String) : Ticket :=
  { id := tid, eventId := eid, zoneId := it.zoneId, seatId := none,
    purchaseId := purchaseId, customerName := c.fullName, customerEmail := c.email,
    ownerName := c.fullName, ownerEmail := c.email,
    ownerPhone := some (jsOrEmpty c.phone), ownerDocId := some (jsOrEmpty c.docId),
    price := it.price, status := "VALID", qrCode := qr }

/-- The committed effect of a successful purchase transaction: the
TicketPurchase row, the seat updates (status SOLD, holder, code), and the
created Ticket rows, seat items first then general items, each seat and
general ticket consuming one entropy index for its QR code.  The source
creates the purchase row before the seat checks; since the transaction is
all-or-nothing and row ids are modeled by the counter, constructing the
whole committed state after the checks yields the identical commit. -/
def applyPurchase (s : Store) (env : Nat → String) (eid : String)
    (items : List Item) (c : Customer) : Store × List Ticket :=
  let purchaseRow : TicketPurchase :=
    { id := genId s.nextId, eventId := eid,
      billingName := c.fullName, billingEmail := c.email,
      billingPhone := jsOrEmpty c.phone, billingDocId := jsOrEmpty c.docId,
      totalAmount := items.foldl (fun acc it => f64add acc it.price) 0 }
  let seatItems := seatItemsOf items
  let generalItems := generalItemsOf items
  let seats' := seatItems.enum.foldl (fun acc ki =>
    acc.map (fun st =>
      if st.id == ki.2.id then
        { st with status := "SOLD", holderName := some c.fullName,
                  ticketCode := some (env ki.1) }
      else st)) s.seats
  let seatTickets := seatItems.enum.map (fun ki =>
    mkSeatTicket eid purchaseRow.id c ki.2 (genId (s.nextId + 1 + ki.1)) (env ki.1))
  let generalTickets := generalItems.enum.map (fun ki =>
    mkGeneralTicket eid purchaseRow.id c ki.2
      (genId (s.nextId + 1 + seatItems.length + ki.1)) (env (seatItems.length + ki.1)))
  let newTickets := seatTickets ++ generalTickets
  ({ s with seats := seats',
            purchases := s.purchases ++ [purchaseRow],
            tickets := s.tickets ++ newTickets,
            nextId := s.nextId + 1 + newTickets.length }, newTickets)

/-- The purchase transaction body (source lines 351-494): capacity
pre-check, purchase record, batched seat fetch, missing-seat check,
availability check, then the staged writes.  A thrown error aborts the
whole transaction, so the error cases carry no state. -/
def purchaseTx (s : Store) (env : Nat → String) (eid : String)
    (items : List Item) (c : Customer) : Except String (Store × List Ticket) :=
  match capacityCheck s items with
  | Except.error msg => Except.error msg
  | Except.ok _ =>
      if (fetchedSeats s (seatIdsOf items)).length ≠ (seatIdsOf items).length then
        Except.error (seatNotFoundMsg ((seatIdsOf items).find?
          (fun i => !(((fetchedSeats s (seatIdsOf items)).map
            (fun st => st.id)).contains i))))
      else
        match (fetchedSeats s (seatIdsOf items)).find?
            (fun st => !(st.status == "AVAILABLE")) with
        | some st => Except.error (seatConflictMsg st.rowLabel st.colLabel)
        | none => Except.ok (applyPurchase s env eid items c)

/-- The purchase route handler (source lines 334-518): empty-cart check
(400), event existence check (404), then the transaction; a transaction
error is surfaced by the catch handler as status 400 with the error
message. -/
def purchaseRoute (s : Store) (env : Nat → String) (eid : String)
    (items? : Option (List Item)) (c : Customer) : Store × Response :=
  match items? with
  | none => (s, Response.err 400 "No items in cart")
  | some items =>
      if items.isEmpty then (s, Response.err 400 "No items in cart")
      else
        match s.events.find? (fun e => e.id == eid) with
        | none => (s, Response.err 404 "Evento no encontrado")
        | some _ =>
            match purchaseTx s env eid items c with
            | Except.error msg => (s, Response.err 400 msg)
            | Except.ok (s', ts) => (s', Response.purchaseOk ts)

/-! ### Transfer route (POST /api/tickets/transfer) -/

/-- The transfer route handler (source lines 597-655): required-field
check (400, JavaScript truthiness), ticket lookup (404), best-effort
ownership check (403, skipped when currentOwnerEmail is falsy), then the
transaction appending one TicketTransfer row and updating the four owner
fields of the ticket. -/
def transferRoute (s : Store) (ticketId : String) (newOwner? : Option NewOwner)
    (currentOwnerEmail : Option String) : Store × Response :=
  match newOwner? with
  | none => (s, Response.err 400 "Missing required fields")
  | some o =>
      if ticketId = "" ∨ o.email = "" ∨ o.name = "" then
        (s, Response.err 400 "Missing required fields")
      else
        match s.tickets.find? (fun t => t.id == ticketId) with
        | none => (s, Response.err 404 "Ticket not found")
        | some ticket =>
            if jsTruthy currentOwnerEmail ∧ some ticket.ownerEmail ≠ currentOwnerEmail then
              (s, Response.err 403 "Unauthorized transfer")
            else
              let transferRow : TicketTransfer :=
                { ticketId := ticket.id,
                  previousOwnerName := ticket.ownerName,
                  previousOwnerEmail := ticket.ownerEmail,
                  newOwnerName := o.name, newOwnerEmail := o.email }
              let updated := fun t =>
                if t.id == ticket.id then
                  { t with ownerName := o.name, ownerEmail := o.email,
                           ownerPhone := jsOrNull o.phone,
                           ownerDocId := jsOrNull o.docId }
                else t
              let s' := { s with transfers := s.transfers ++ [transferRow],
                                  tickets := s.tickets.map updated }
              (s', Response.transferOk (updated ticket))

/-- One purchase request, carrying its own entropy source for QR codes. -/
structure PReq where
  env : Nat → String
  eventId : String
  items : Option (List Item)
  customer : Customer

/-- Run a sequence of purchase requests against the store, committing each
successful one, and record the responses in order. -/
def runPurchases : Store → List PReq → Store × List Response
  | s, [] => (s, [])
  | s, r :: rs =>
      ((runPurchases (purchaseRoute s r.env r.eventId r.items r.customer).1 rs).1,
        (purchaseRoute s r.env r.eventId r.items r.customer).2
          :: (runPurchases (purchaseRoute s r.env r.eventId r.items r.customer).1 rs).2)

/-! ### Concrete demonstration data -/

/-- Entropy source used in concrete runs (the n-th synthesized QR code). -/
def demoEnv : Nat → String := fun n => "qr-" ++ toString n

/-- A concrete customer contact bundle. -/
def demoCust : Customer := ⟨"Original Buyer", "buyer@test.com", some "123", none⟩

/-- A concrete new owner for transfers. -/
def demoOwner : NewOwner := ⟨"New Owner", "n@x.com", none, none⟩

/-- A VALID ticket owned by a@x.com, used by the transfer claims. -/
def demoTicket : Ticket :=
  { id := "T1", eventId := "E1", zoneId := "Z1", seatId := none,
    purchaseId := "P1", customerName := "Alice", customerEmail := "a@x.com",
    ownerName := "Alice", ownerEmail := "a@x.com", ownerPhone := none,
    ownerDocId := none, price := 100, status := "VALID", qrCode := "QR1" }

/-- A store holding one event and the ticket above. -/
def demoTransferStore : Store :=
  { events := [⟨"E1"⟩], zones := [], seats := [], tickets := [demoTicket],
    purchases := [], transfers := [], nextId := 0 }

/-- A store for purchase runs: one event, a zero-capacity zone holding one
available and one sold seat, a capacity-one zone, and an unbounded zone. -/
def demoSaleStore : Store :=
  { events := [⟨"E1"⟩],
    zones := [⟨"Z0", "E1", "Zero", some 0⟩, ⟨"Z1", "E1", "VIP", some 1⟩,
              ⟨"Z2", "E1", "Open", none⟩],
    seats := [⟨"S1", "E1", "Z0", "A", "1", "AVAILABLE", none, none⟩,
              ⟨"S2", "E1", "Z0", "B", "2", "SOLD", some "Bob", some "QRS2"⟩],
    tickets := [], purchases := [], transfers := [], nextId := 0 }

/-- A store whose capacity-one zone already holds one CANCELLED ticket. -/
def demoCancelStore : Store :=
  { events := [⟨"E1"⟩],
    zones := [⟨"Z1", "E1", "VIP", some 1⟩],
    seats := [],
    tickets := [{ id := "T0", eventId := "E1", zoneId := "Z1", seatId := none,
                  purchaseId := "P0", customerName := "Carl", customerEmail := "c@x.com",
                  ownerName := "Carl", ownerEmail := "c@x.com", ownerPhone := none,
                  ownerDocId := none, price := 50, status := "CANCELLED",
                  qrCode := "QRT0" }],
    purchases := [], transfers := [], nextId := 0 }

/-- The binary64 double received for the JSON decimal literal 0.1. -/
def price01 : ℚ := f64round ((1 : ℚ) / 10)

/-- The binary64 double received for the JSON decimal literal 0.2. -/
def price02 : ℚ := f64round ((2 : ℚ) / 10)

/-! ### Claim C9 -/

/-- C9: a purchase request whose items list is empty or absent fails with
HTTP status 400 and the InvalidRequest message, and no store write of any
kind occurs (the returned store is the input store). -/
theorem claim9_empty_cart (s : Store) (env : Nat → String) (eid : String)
    (items? : Option (List Item)) (c : Customer)
    (h : items? = none ∨ items? = some []) :
    purchaseRoute s env eid items? c = (s, Response.err 400 "No items in cart") := by
  rcases h with h | h <;> subst h <;> rfl

/-- Witness for C9: the empty-cart request at a concrete store. -/
theorem claim9_empty_cart_witness :
    purchaseRoute demoTransferStore demoEnv "E1" (some []) demoCust
      = (demoTransferStore, Response.err 400 "No items in cart") :=
  claim9_empty_cart demoTransferStore demoEnv "E1" (some []) demoCust (Or.inr rfl)

/-! ### Claim C5 -/

/-- C5: every successful transfer appends exactly one TicketTransfer row
whose previous-owner name and email are the ticket owner fields read before
the call, and afterwards the ticket with that id carries the requested new
owner name and email; both effects are parts of one committed state. -/
theorem claim5_transfer_audit (s : Store) (tid : String) (o : NewOwner)
    (cur : Option String) (t : Ticket)
    (hfind : s.tickets.find? (fun x => x.id == tid) = some t)
    (hok : ((transferRoute s tid (some o) cur).2).isOk = true) :
    (transferRoute s tid (some o) cur).1.transfers
      = s.transfers ++ [⟨t.id, t.ownerName, t.ownerEmail, o.name, o.email⟩]
    ∧ ∃ t', (transferRoute s tid (some o) cur).1.tickets.find? (fun x => x.id == tid)
          = some t' ∧ t'.ownerEmail = o.email ∧ t'.ownerName = o.name := by
  unfold transferRoute at hok ⊢
  by_cases h1 : tid = "" ∨ o.email = "" ∨ o.name = ""
  · simp only [if_pos h1] at hok
    simp [Response.isOk] at hok
  · simp only [if_neg h1, hfind] at hok ⊢
    by_cases h2 : jsTruthy cur = true ∧ some t.ownerEmail ≠ cur
    · simp only [if_pos h2] at hok
      simp [Response.isOk] at hok
    · simp only [if_neg h2]
      have hid : (t.id == tid) = true := by
        have h := List.find?_some hfind
        simpa using h
      refine ⟨by first | rfl | trivial,
        ⟨{ t with ownerName := o.name, ownerEmail := o.email,
                  ownerPhone := jsOrNull o.phone,
                  ownerDocId := jsOrNull o.docId }, ?_, rfl, rfl⟩⟩
      rw [List.find?_map]
      have hcomp : (fun x : Ticket => x.id == tid) ∘
          (fun x : Ticket => if x.id == t.id then
            { x with ownerName := o.name, ownerEmail := o.email,
                     ownerPhone := jsOrNull o.phone,
                     ownerDocId := jsOrNull o.docId } else x)
          = fun x : Ticket => x.id == tid := by
        funext x
        by_cases hx : (x.id == t.id) = true <;> simp [Function.comp, hx]
      rw [hcomp, hfind]
      simp [hid]

/-- Witness for C5: a successful transfer of the demo ticket. -/
theorem claim5_transfer_audit_witness :
    (transferRoute demoTransferStore "T1" (some demoOwner) (some "a@x.com")).1.transfers
      = demoTransferStore.transfers
          ++ [⟨demoTicket.id, demoTicket.ownerName, demoTicket.ownerEmail,
               demoOwner.name, demoOwner.email⟩]
    ∧ ∃ t', (transferRoute demoTransferStore "T1" (some demoOwner)
          (some "a@x.com")).1.tickets.find? (fun x => x.id == "T1")
        = some t' ∧ t'.ownerEmail = demoOwner.email ∧ t'.ownerName = demoOwner.name :=
  claim5_transfer_audit demoTransferStore "T1" demoOwner (some "a@x.com") demoTicket
    (by decide) (by decide)

/-! ### Claim C6 -/

/-- Counterexample to C6 as stated: `currentOwnerEmail` supplied as the
empty string differs from the ticket owner email, yet the transfer succeeds
(status 200), the owner email changes, and a TicketTransfer row is created,
because the source guards the ownership check with JavaScript truthiness
(`currentOwnerEmail && ...`) and the empty string is falsy. -/
theorem claim6_counterexample :
    ("" : String) ≠ demoTicket.ownerEmail
    ∧ ((transferRoute demoTransferStore "T1" (some demoOwner) (some "")).2).statusCode = 200
    ∧ ((transferRoute demoTransferStore "T1" (some demoOwner) (some "")).1.tickets.map
        Ticket.ownerEmail) = ["n@x.com"]
    ∧ ((transferRoute demoTransferStore "T1" (some demoOwner) (some "")).1.transfers).length
        = 1 := by
  decide

/-- C6 (amended): when the required fields are present and non-empty, the
ticket exists, and `currentOwnerEmail` is supplied, non-empty, and differs
from the ticket owner email, the transfer fails with HTTP 403 Unauthorized
and the store is returned unchanged (owner fields intact, no TicketTransfer
row). -/
theorem claim6_unauthorized_mismatch (s : Store) (tid : String) (o : NewOwner)
    (cur : String) (t : Ticket)
    (htid : tid ≠ "") (hemail : o.email ≠ "") (hname : o.name ≠ "")
    (hfind : s.tickets.find? (fun x => x.id == tid) = some t)
    (hcur : cur ≠ "") (hdiff : t.ownerEmail ≠ cur) :
    transferRoute s tid (some o) (some cur)
      = (s, Response.err 403 "Unauthorized transfer") := by
  simp only [transferRoute]
  rw [if_neg (by tauto)]
  rw [hfind]
  simp only []
  rw [if_pos]
  constructor
  · simp [jsTruthy, hcur]
  · simpa using hdiff

/-- Witness for C6 (amended): a mismatching non-empty currentOwnerEmail. -/
theorem claim6_unauthorized_mismatch_witness :
    transferRoute demoTransferStore "T1" (some demoOwner) (some "b@x.com")
      = (demoTransferStore, Response.err 403 "Unauthorized transfer") :=
  claim6_unauthorized_mismatch demoTransferStore "T1" demoOwner "b@x.com" demoTicket
    (by decide) (by decide) (by decide) (by decide) (by decide) (by decide)

/-! ### Claim C10 -/

/-- C10: a successful transfer rewrites exactly the four owner fields of
the ticket (phone and document id becoming null when the new owner omits
them) and leaves its id, status, qrCode, price, eventId, zoneId, seatId,
purchaseId, customerName and customerEmail unchanged; tickets with a
different id are untouched. -/
theorem claim10_transfer_frame (s : Store) (tid : String) (o : NewOwner)
    (cur : Option String) (t : Ticket)
    (hfind : s.tickets.find? (fun x => x.id == tid) = some t)
    (hok : ((transferRoute s tid (some o) cur).2).isOk = true) :
    (∃ t', (transferRoute s tid (some o) cur).1.tickets.find? (fun x => x.id == tid)
        = some t'
      ∧ t'.ownerName = o.name ∧ t'.ownerEmail = o.email
      ∧ t'.ownerPhone = jsOrNull o.phone ∧ t'.ownerDocId = jsOrNull o.docId
      ∧ (o.phone = none → t'.ownerPhone = none) ∧ (o.docId = none → t'.ownerDocId = none)
      ∧ t'.id = t.id ∧ t'.status = t.status ∧ t'.qrCode = t.qrCode ∧ t'.price = t.price
      ∧ t'.eventId = t.eventId ∧ t'.zoneId = t.zoneId ∧ t'.seatId = t.seatId
      ∧ t'.purchaseId = t.purchaseId ∧ t'.customerName = t.customerName
      ∧ t'.customerEmail = t.customerEmail)
    ∧ ∀ x ∈ s.tickets, x.id ≠ t.id →
        x ∈ (transferRoute s tid (some o) cur).1.tickets := by
  unfold transferRoute at hok ⊢
  by_cases h1 : tid = "" ∨ o.email = "" ∨ o.name = ""
  · simp only [if_pos h1] at hok
    simp [Response.isOk] at hok
  · simp only [if_neg h1, hfind] at hok ⊢
    by_cases h2 : jsTruthy cur = true ∧ some t.ownerEmail ≠ cur
    · simp only [if_pos h2] at hok
      simp [Response.isOk] at hok
    · simp only [if_neg h2]
      constructor
      · refine ⟨{ t with
                    ownerName := o.name,
                    ownerEmail := o.email,
                    ownerPhone := jsOrNull o.phone,
                    ownerDocId := jsOrNull o.docId },
          ?_, rfl, rfl, rfl, rfl, ?_, ?_, rfl, rfl, rfl, rfl, rfl, rfl, rfl, rfl, rfl, rfl⟩
        · rw [List.find?_map]
          have hcomp : (fun x : Ticket => x.id == tid) ∘
              (fun x : Ticket => if x.id == t.id then
                { x with ownerName := o.name, ownerEmail := o.email,
                         ownerPhone := jsOrNull o.phone,
                         ownerDocId := jsOrNull o.docId } else x)
              = fun x : Ticket => x.id == tid := by
            funext x
            by_cases hx : (x.id == t.id) = true <;> simp [Function.comp, hx]
          rw [hcomp, hfind]
          have hid : (t.id == tid) = true := by
            have h := List.find?_some hfind
            simpa using h
          simp [hid]
        · intro hp
          simp [hp, jsOrNull]
        · intro hp
          simp [hp, jsOrNull]
      · intro x hx hne
        refine List.mem_map.mpr ⟨x, hx, ?_⟩
        rw [if_neg]
        simp [hne]

/-- Witness for C10: the demo transfer leaves all non-owner fields
unchanged. -/
theorem claim10_transfer_frame_witness :
    (∃ t', (transferRoute demoTransferStore "T1" (some demoOwner)
          (some "a@x.com")).1.tickets.find? (fun x => x.id == "T1") = some t'
      ∧ t'.ownerName = demoOwner.name ∧ t'.ownerEmail = demoOwner.email
      ∧ t'.ownerPhone = jsOrNull demoOwner.phone ∧ t'.ownerDocId = jsOrNull demoOwner.docId
      ∧ (demoOwner.phone = none → t'.ownerPhone = none)
      ∧ (demoOwner.docId = none → t'.ownerDocId = none)
      ∧ t'.id = demoTicket.id ∧ t'.status = demoTicket.status
      ∧ t'.qrCode = demoTicket.qrCode ∧ t'.price = demoTicket.price
      ∧ t'.eventId = demoTicket.eventId ∧ t'.zoneId = demoTicket.zoneId
      ∧ t'.seatId = demoTicket.seatId ∧ t'.purchaseId = demoTicket.purchaseId
      ∧ t'.customerName = demoTicket.customerName
      ∧ t'.customerEmail = demoTicket.customerEmail)
    ∧ ∀ x ∈ demoTransferStore.tickets, x.id ≠ demoTicket.id →
        x ∈ (transferRoute demoTransferStore "T1" (some demoOwner)
          (some "a@x.com")).1.tickets :=
  claim10_transfer_frame demoTransferStore "T1" demoOwner (some "a@x.com") demoTicket
    (by decide) (by decide)


/-! ### Structural lemmas for the purchase route -/

/-- Mapping an index-independent function over an enumerated list is mapping
over the list itself. -/
theorem enum_map_proj {α β : Type} (l : List α) (f : Nat × α → β) (g : α → β)
    (h : ∀ p : Nat × α, f p = g p.2) : l.enum.map f = l.map g := by
  calc l.enum.map f = l.enum.map (g ∘ Prod.snd) := by
        exact List.map_congr_left (fun p _ => h p)
    _ = (l.enum.map Prod.snd).map g := by rw [List.map_map]
    _ = l.map g := by rw [List.enum_map_snd]

/-- A capacity pre-check error aborts the transaction with that message. -/
theorem purchaseTx_capErr (s : Store) (env : Nat → String) (eid : String)
    (items : List Item) (c : Customer) (m : String)
    (h : capacityCheck s items = Except.error m) :
    purchaseTx s env eid items c = Except.error m := by
  unfold purchaseTx
  rw [h]

/-- An incomplete seat fetch aborts the transaction with the missing-seat
message naming the first requested id not fetched. -/
theorem purchaseTx_seatMissing (s : Store) (env : Nat → String) (eid : String)
    (items : List Item) (c : Customer)
    (hcap : capacityCheck s items = Except.ok ())
    (hlen : (fetchedSeats s (seatIdsOf items)).length ≠ (seatIdsOf items).length) :
    purchaseTx s env eid items c
      = Except.error (seatNotFoundMsg ((seatIdsOf items).find?
          (fun i => !(((fetchedSeats s (seatIdsOf items)).map
            (fun st => st.id)).contains i)))) := by
  unfold purchaseTx
  rw [hcap]
  show ite _ _ _ = _
  rw [if_pos hlen]

/-- An unavailable fetched seat aborts the transaction with the conflict
message naming its row and column labels. -/
theorem purchaseTx_seatConflict (s : Store) (env : Nat → String) (eid : String)
    (items : List Item) (c : Customer) (st : Seat)
    (hcap : capacityCheck s items = Except.ok ())
    (hlen : (fetchedSeats s (seatIdsOf items)).length = (seatIdsOf items).length)
    (hfd : (fetchedSeats s (seatIdsOf items)).find?
        (fun x => !(x.status == "AVAILABLE")) = some st) :
    purchaseTx s env eid items c
      = Except.error (seatConflictMsg st.rowLabel st.colLabel) := by
  unfold purchaseTx
  rw [hcap]
  show ite _ _ _ = _
  rw [if_neg (by simp [hlen]), hfd]

/-- When every check passes the transaction commits the applyPurchase
state. -/
theorem purchaseTx_success (s : Store) (env : Nat → String) (eid : String)
    (items : List Item) (c : Customer)
    (hcap : capacityCheck s items = Except.ok ())
    (hlen : (fetchedSeats s (seatIdsOf items)).length = (seatIdsOf items).length)
    (hfd : (fetchedSeats s (seatIdsOf items)).find?
        (fun x => !(x.status == "AVAILABLE")) = none) :
    purchaseTx s env eid items c = Except.ok (applyPurchase s env eid items c) := by
  unfold purchaseTx
  rw [hcap]
  show ite _ _ _ = _
  rw [if_neg (by simp [hlen]), hfd]

/-- Inversion: a committed transaction passed every check and produced the
applyPurchase state. -/
theorem purchaseTx_ok_inv (s : Store) (env : Nat → String) (eid : String)
    (items : List Item) (c : Customer) (r : Store × List Ticket)
    (h : purchaseTx s env eid items c = Except.ok r) :
    capacityCheck s items = Except.ok ()
    ∧ (fetchedSeats s (seatIdsOf items)).length = (seatIdsOf items).length
    ∧ (fetchedSeats s (seatIdsOf items)).find?
        (fun st => !(st.status == "AVAILABLE")) = none
    ∧ r = applyPurchase s env eid items c := by
  unfold purchaseTx at h
  split at h
  · exact Except.noConfusion h
  · rename_i u heq
    split at h
    · exact Except.noConfusion h
    · rename_i hnlen
      split at h
      · exact Except.noConfusion h
      · rename_i hfd
        cases u
        refine ⟨heq, not_ne_iff.mp hnlen, hfd, ?_⟩
        injection h with h'
        exact h'.symm

/-- The purchase route on an empty cart. -/
theorem purchaseRoute_empty (s : Store) (env : Nat → String) (eid : String)
    (items : List Item) (c : Customer) (hne : items.isEmpty = true) :
    purchaseRoute s env eid (some items) c
      = (s, Response.err 400 "No items in cart") := by
  simp only [purchaseRoute]
  rw [if_pos hne]

/-- The purchase route when the event is absent. -/
theorem purchaseRoute_noEvent (s : Store) (env : Nat → String) (eid : String)
    (items : List Item) (c : Customer) (hne : items.isEmpty = false)
    (hev : s.events.find? (fun e => e.id == eid) = none) :
    purchaseRoute s env eid (some items) c
      = (s, Response.err 404 "Evento no encontrado") := by
  simp only [purchaseRoute]
  rw [if_neg (by simp [hne]), hev]

/-- The purchase route defers to the transaction when the cart is non-empty
and the event exists. -/
theorem purchaseRoute_some_tx (s : Store) (env : Nat → String) (eid : String)
    (items : List Item) (c : Customer) (e : Event)
    (hne : items.isEmpty = false)
    (hev : s.events.find? (fun x => x.id == eid) = some e) :
    purchaseRoute s env eid (some items) c
      = (match purchaseTx s env eid items c with
         | Except.error msg => (s, Response.err 400 msg)
         | Except.ok (s', ts) => (s', Response.purchaseOk ts)) := by
  simp only [purchaseRoute]
  rw [if_neg (by simp [hne]), hev]

/-- A transaction error is surfaced by the catch handler as status 400
with the error message. -/
theorem purchaseRoute_err400 (s : Store) (env : Nat → String) (eid : String)
    (items : List Item) (c : Customer) (e : Event) (m : String)
    (hne : items.isEmpty = false)
    (hev : s.events.find? (fun x => x.id == eid) = some e)
    (htx : purchaseTx s env eid items c = Except.error m) :
    purchaseRoute s env eid (some items) c = (s, Response.err 400 m) := by
  rw [purchaseRoute_some_tx s env eid items c e hne hev, htx]

/-- A committed transaction is surfaced as the success payload over the
committed store. -/
theorem purchaseRoute_ok_eq (s : Store) (env : Nat → String) (eid : String)
    (items : List Item) (c : Customer) (e : Event)
    (hne : items.isEmpty = false)
    (hev : s.events.find? (fun x => x.id == eid) = some e)
    (hcap : capacityCheck s items = Except.ok ())
    (hlen : (fetchedSeats s (seatIdsOf items)).length = (seatIdsOf items).length)
    (hfd : (fetchedSeats s (seatIdsOf items)).find?
        (fun x => !(x.status == "AVAILABLE")) = none) :
    purchaseRoute s env eid (some items) c
      = ((applyPurchase s env eid items c).1,
         Response.purchaseOk (applyPurchase s env eid items c).2) := by
  rw [purchaseRoute_some_tx s env eid items c e hne hev,
    purchaseTx_success s env eid items c hcap hlen hfd]

/-- A successful purchase response is exactly the committed applyPurchase
state and tickets, and every transaction check passed. -/
theorem purchaseRoute_ok (s : Store) (env : Nat → String) (eid : String)
    (items : List Item) (c : Customer)
    (hok : ((purchaseRoute s env eid (some items) c).2).isOk = true) :
    purchaseRoute s env eid (some items) c
      = ((applyPurchase s env eid items c).1,
         Response.purchaseOk (applyPurchase s env eid items c).2)
    ∧ capacityCheck s items = Except.ok ()
    ∧ (fetchedSeats s (seatIdsOf items)).length = (seatIdsOf items).length
    ∧ (fetchedSeats s (seatIdsOf items)).find?
        (fun st => !(st.status == "AVAILABLE")) = none := by
  cases hne : items.isEmpty with
  | true =>
      rw [purchaseRoute_empty s env eid items c hne] at hok
      simp [Response.isOk] at hok
  | false =>
      cases hev : s.events.find? (fun x => x.id == eid) with
      | none =>
          rw [purchaseRoute_noEvent s env eid items c hne hev] at hok
          simp [Response.isOk] at hok
      | some e =>
          cases htx : purchaseTx s env eid items c with
          | error m =>
              rw [purchaseRoute_err400 s env eid items c e m hne hev htx] at hok
              simp [Response.isOk] at hok
          | ok r =>
              obtain ⟨hcap, hlen, hfd, hr⟩ :=
                purchaseTx_ok_inv s env eid items c r htx
              exact ⟨purchaseRoute_ok_eq s env eid items c e hne hev hcap hlen hfd,
                hcap, hlen, hfd⟩

/-- A purchase response that is not a success leaves the store unchanged. -/
theorem purchaseRoute_fail_fst (s : Store) (env : Nat → String) (eid : String)
    (items? : Option (List Item)) (c : Customer)
    (h : ((purchaseRoute s env eid items? c).2).isOk = false) :
    (purchaseRoute s env eid items? c).1 = s := by
  cases items? with
  | none => rfl
  | some items =>
      cases hne : items.isEmpty with
      | true => rw [purchaseRoute_empty s env eid items c hne]
      | false =>
          cases hev : s.events.find? (fun x => x.id == eid) with
          | none => rw [purchaseRoute_noEvent s env eid items c hne hev]
          | some e =>
              cases htx : purchaseTx s env eid items c with
              | error m => rw [purchaseRoute_err400 s env eid items c e m hne hev htx]
              | ok r =>
                  obtain ⟨hcap, hlen, hfd, hr⟩ :=
                    purchaseTx_ok_inv s env eid items c r htx
                  rw [purchaseRoute_ok_eq s env eid items c e hne hev hcap hlen hfd] at h
                  simp [Response.isOk] at h

/-! ### Structural equations of the committed purchase state -/

/-- The created tickets: seat tickets in seat-item order, then general
tickets in general-item order. -/
theorem applyPurchase_snd (s : Store) (env : Nat → String) (eid : String)
    (items : List Item) (c : Customer) :
    (applyPurchase s env eid items c).2
      = (seatItemsOf items).enum.map (fun ki =>
          mkSeatTicket eid (genId s.nextId) c ki.2
            (genId (s.nextId + 1 + ki.1)) (env ki.1))
        ++ (generalItemsOf items).enum.map (fun ki =>
          mkGeneralTicket eid (genId s.nextId) c ki.2
            (genId (s.nextId + 1 + (seatItemsOf items).length + ki.1))
            (env ((seatItemsOf items).length + ki.1))) := rfl

/-- The committed ticket table is the old table plus the created tickets. -/
theorem applyPurchase_tickets (s : Store) (env : Nat → String) (eid : String)
    (items : List Item) (c : Customer) :
    (applyPurchase s env eid items c).1.tickets
      = s.tickets ++ (applyPurchase s env eid items c).2 := rfl

/-- The committed purchase table gains exactly one billing row, whose
totalAmount is the left fold of binary64 addition over the item prices. -/
theorem applyPurchase_purchases (s : Store) (env : Nat → String) (eid : String)
    (items : List Item) (c : Customer) :
    (applyPurchase s env eid items c).1.purchases
      = s.purchases
        ++ [{ id := genId s.nextId, eventId := eid,
              billingName := c.fullName, billingEmail := c.email,
              billingPhone := jsOrEmpty c.phone, billingDocId := jsOrEmpty c.docId,
              totalAmount := items.foldl (fun acc it => f64add acc it.price) 0 }] := rfl

/-- A purchase commit does not touch the zone table. -/
theorem applyPurchase_zones (s : Store) (env : Nat → String) (eid : String)
    (items : List Item) (c : Customer) :
    (applyPurchase s env eid items c).1.zones = s.zones := rfl

/-- A purchase commit does not touch the event table. -/
theorem applyPurchase_events (s : Store) (env : Nat → String) (eid : String)
    (items : List Item) (c : Customer) :
    (applyPurchase s env eid items c).1.events = s.events := rfl

/-! ### Claim C8 -/

/-- C8: the tickets returned by a successful purchase are, in order, one
ticket per seat-type item in the input order of the seat items (bound to
that seat) followed by one ticket per general-type item in the input order
of the general items (with no seat), carrying the item zone and price. -/
theorem claim8_ticket_order (s : Store) (env : Nat → String) (eid : String)
    (items : List Item) (c : Customer)
    (hok : ((purchaseRoute s env eid (some items) c).2).isOk = true) :
    ((purchaseRoute s env eid (some items) c).2).ticketsOf.map
        (fun t => (t.zoneId, t.seatId, t.price))
      = (seatItemsOf items).map (fun i => (i.zoneId, some i.id, i.price))
        ++ (generalItemsOf items).map
            (fun i => (i.zoneId, (none : Option String), i.price)) := by
  obtain ⟨heq, -, -, -⟩ := purchaseRoute_ok s env eid items c hok
  rw [heq]
  show ((applyPurchase s env eid items c).2).map _ = _
  rw [applyPurchase_snd, List.map_append, List.map_map, List.map_map]
  congr 1
  · exact enum_map_proj _ _ _ (fun p => rfl)
  · exact enum_map_proj _ _ _ (fun p => rfl)

/-- Witness for C8: a mixed cart listing the general item first still
yields the seat ticket first. -/
theorem claim8_ticket_order_witness :
    ((purchaseRoute demoSaleStore demoEnv "E1"
        (some [⟨"g1", "general", "Z2", 100⟩, ⟨"S1", "seat", "Z0", 50⟩])
        demoCust).2).ticketsOf.map (fun t => (t.zoneId, t.seatId, t.price))
      = (seatItemsOf [⟨"g1", "general", "Z2", 100⟩, ⟨"S1", "seat", "Z0", 50⟩]).map
          (fun i => (i.zoneId, some i.id, i.price))
        ++ (generalItemsOf [⟨"g1", "general", "Z2", 100⟩, ⟨"S1", "seat", "Z0", 50⟩]).map
            (fun i => (i.zoneId, (none : Option String), i.price)) :=
  claim8_ticket_order demoSaleStore demoEnv "E1"
    [⟨"g1", "general", "Z2", 100⟩, ⟨"S1", "seat", "Z0", 50⟩] demoCust (by decide)

/-! ### Claim C7 -/

/-- Counterexample to C7 as stated: a successful purchase of two general
items priced with the doubles received for 0.1 and 0.2 commits a
TicketPurchase row whose totalAmount is the binary64 float sum, which
differs from the exact decimal sum of the two prices: the summation is
floating-point, not decimal-safe. -/
theorem claim7_counterexample :
    ((purchaseRoute demoSaleStore demoEnv "E1"
        (some [⟨"g1", "general", "Z2", price01⟩, ⟨"g2", "general", "Z2", price02⟩])
        demoCust).2).isOk = true
    ∧ ((purchaseRoute demoSaleStore demoEnv "E1"
        (some [⟨"g1", "general", "Z2", price01⟩, ⟨"g2", "general", "Z2", price02⟩])
        demoCust).1.purchases).map TicketPurchase.totalAmount
      = [f64add (f64add 0 price01) price02]
    ∧ f64add (f64add 0 price01) price02 ≠ price01 + price02 := by
  refine ⟨by decide, ?_, by with_unfolding_all decide⟩
  rw [purchaseRoute_ok_eq demoSaleStore demoEnv "E1"
    [⟨"g1", "general", "Z2", price01⟩, ⟨"g2", "general", "Z2", price02⟩]
    demoCust ⟨"E1"⟩ rfl rfl rfl rfl rfl]
  rw [applyPurchase_purchases]
  rfl

/-- C7 (amended): every successful purchase inserts exactly one
TicketPurchase row, whose totalAmount is the left fold of IEEE-754 binary64
(JavaScript number) addition over the item prices starting from 0 — a
floating-point sum rather than an exact decimal one. -/
theorem claim7_total_amount (s : Store) (env : Nat → String) (eid : String)
    (items : List Item) (c : Customer)
    (hok : ((purchaseRoute s env eid (some items) c).2).isOk = true) :
    ((purchaseRoute s env eid (some items) c).1.purchases).map
        TicketPurchase.totalAmount
      = (s.purchases.map TicketPurchase.totalAmount)
        ++ [items.foldl (fun acc it => f64add acc it.price) 0] := by
  obtain ⟨heq, -, -, -⟩ := purchaseRoute_ok s env eid items c hok
  rw [heq]
  show ((applyPurchase s env eid items c).1.purchases).map _ = _
  rw [applyPurchase_purchases, List.map_append]
  rfl

/-- Witness for C7 (amended): a concrete successful purchase. -/
theorem claim7_total_amount_witness :
    ((purchaseRoute demoSaleStore demoEnv "E1"
        (some [⟨"g1", "general", "Z2", 100⟩]) demoCust).1.purchases).map
        TicketPurchase.totalAmount
      = (demoSaleStore.purchases.map TicketPurchase.totalAmount)
        ++ [[(⟨"g1", "general", "Z2", 100⟩ : Item)].foldl
              (fun acc it => f64add acc it.price) 0] :=
  claim7_total_amount demoSaleStore demoEnv "E1"
    [⟨"g1", "general", "Z2", 100⟩] demoCust (by decide)

/-! ### Seat-fetch cardinality lemmas -/

/-- Membership formulation of `List.contains` on strings. -/
theorem contains_iff_mem {l : List String} {a : String} :
    l.contains a = true ↔ a ∈ l := by
  simp [List.contains_iff_exists_mem_beq]

/-- With duplicate-free stored seat ids, a requested seat id that has no
stored row makes the batched fetch strictly shorter than the request
list. -/
theorem fetchedSeats_length_lt (s : Store) (ids : List String) (m : String)
    (hnodup : (s.seats.map (fun st => st.id)).Nodup)
    (hm : m ∈ ids) (habs : ∀ st ∈ s.seats, st.id ≠ m) :
    (fetchedSeats s ids).length < ids.length := by
  classical
  have hnd : ((fetchedSeats s ids).map (fun st => st.id)).Nodup :=
    (List.Sublist.map _ (List.filter_sublist _)).nodup hnodup
  have hsubset : ((fetchedSeats s ids).map (fun st => st.id)).toFinset
      ⊆ ids.toFinset.erase m := by
    intro x hx
    rw [List.mem_toFinset] at hx
    obtain ⟨st, hst, hid⟩ := List.mem_map.mp hx
    have hst' := List.mem_filter.mp hst
    rw [Finset.mem_erase]
    refine ⟨fun hxm => habs st hst'.1 (hid.trans hxm), ?_⟩
    rw [List.mem_toFinset, ← hid]
    exact contains_iff_mem.mp hst'.2
  calc (fetchedSeats s ids).length
      = ((fetchedSeats s ids).map (fun st => st.id)).length :=
        (List.length_map _ _).symm
    _ = ((fetchedSeats s ids).map (fun st => st.id)).toFinset.card :=
        (List.toFinset_card_of_nodup hnd).symm
    _ ≤ (ids.toFinset.erase m).card := Finset.card_le_card hsubset
    _ < ids.toFinset.card := by
        have hm' : m ∈ ids.toFinset := List.mem_toFinset.mpr hm
        have h1 := Finset.card_erase_of_mem hm'
        have hpos : 0 < ids.toFinset.card := Finset.card_pos.mpr ⟨m, hm'⟩
        omega
    _ ≤ ids.length := List.toFinset_card_le _

/-- With duplicate-free stored seat ids and duplicate-free requested ids
that all exist, the batched fetch returns exactly one row per requested
id. -/
theorem fetchedSeats_length_eq (s : Store) (ids : List String)
    (hnodup : (s.seats.map (fun st => st.id)).Nodup)
    (hids : ids.Nodup)
    (hall : ∀ i ∈ ids, ∃ st ∈ s.seats, st.id = i) :
    (fetchedSeats s ids).length = ids.length := by
  have hnd : ((fetchedSeats s ids).map (fun st => st.id)).Nodup :=
    (List.Sublist.map _ (List.filter_sublist _)).nodup hnodup
  have hperm : ((fetchedSeats s ids).map (fun st => st.id)).Perm ids := by
    rw [List.perm_ext_iff_of_nodup hnd hids]
    intro a
    constructor
    · intro ha
      obtain ⟨st, hst, hid⟩ := List.mem_map.mp ha
      have hst' := List.mem_filter.mp hst
      rw [← hid]
      exact contains_iff_mem.mp hst'.2
    · intro ha
      obtain ⟨st, hstmem, hid⟩ := hall a ha
      refine List.mem_map.mpr ⟨st, ?_, hid⟩
      simp only [fetchedSeats]
      rw [List.mem_filter]
      refine ⟨hstmem, ?_⟩
      rw [hid]
      exact contains_iff_mem.mpr ha
  calc (fetchedSeats s ids).length
      = ((fetchedSeats s ids).map (fun st => st.id)).length :=
        (List.length_map _ _).symm
    _ = ids.length := hperm.length_eq

/-! ### Claim C4 -/

/-- Counterexample to C4 as stated: a purchase requesting a seat id with no
Seat row fails with the message naming the missing id, but the HTTP status
is 400 (the transaction catch handler), not the 404 the claim asserts. -/
theorem claim4_counterexample :
    (∀ st ∈ demoSaleStore.seats, st.id ≠ "SX")
    ∧ purchaseRoute demoSaleStore demoEnv "E1"
        (some [⟨"SX", "seat", "Z0", 10⟩]) demoCust
      = (demoSaleStore, Response.err 400 (seatNotFoundMsg (some "SX"))) := by
  refine ⟨by decide, ?_⟩
  rw [purchaseRoute_err400 demoSaleStore demoEnv "E1"
      [⟨"SX", "seat", "Z0", 10⟩] demoCust ⟨"E1"⟩ _ rfl rfl
      (purchaseTx_seatMissing demoSaleStore demoEnv "E1"
        [⟨"SX", "seat", "Z0", 10⟩] demoCust rfl (by decide))]
  rfl

/-- C4 (amended): when the cart is non-empty, the event exists, the
capacity pre-check passes, and some requested seat id (with duplicate-free
stored seat ids) has no Seat row, the whole transaction fails naming the
first requested id that was not fetched — an id that indeed has no row —
and the failure is surfaced to the HTTP caller with status 400 (the
route catch handler), not 404. -/
theorem claim4_missing_seat (s : Store) (env : Nat → String) (eid : String)
    (items : List Item) (c : Customer) (e : Event)
    (hne : items.isEmpty = false)
    (hev : s.events.find? (fun x => x.id == eid) = some e)
    (hcap : capacityCheck s items = Except.ok ())
    (hnodup : (s.seats.map (fun st => st.id)).Nodup)
    (hmiss : ∃ it ∈ items, it.type = "seat" ∧ ∀ st ∈ s.seats, st.id ≠ it.id) :
    ∃ missing, (seatIdsOf items).find?
        (fun i => !(((fetchedSeats s (seatIdsOf items)).map
          (fun st => st.id)).contains i)) = some missing
      ∧ (∀ st ∈ s.seats, st.id ≠ missing)
      ∧ purchaseRoute s env eid (some items) c
          = (s, Response.err 400 (seatNotFoundMsg (some missing))) := by
  obtain ⟨it, hit, htype, habs⟩ := hmiss
  have hmId : it.id ∈ seatIdsOf items := by
    simp only [seatIdsOf, seatItemsOf]
    refine List.mem_map.mpr ⟨it, ?_, rfl⟩
    rw [List.mem_filter]
    exact ⟨hit, by simp [htype]⟩
  have hlt := fetchedSeats_length_lt s (seatIdsOf items) it.id hnodup hmId habs
  have hsome : ((seatIdsOf items).find?
      (fun i => !(((fetchedSeats s (seatIdsOf items)).map
        (fun st => st.id)).contains i))).isSome = true := by
    rw [List.find?_isSome]
    refine ⟨it.id, hmId, ?_⟩
    simp only [Bool.not_eq_true']
    rw [← Bool.not_eq_true]
    intro hcont
    obtain ⟨st, hst, hid⟩ := List.mem_map.mp (contains_iff_mem.mp hcont)
    exact habs st (List.mem_of_mem_filter hst) hid
  obtain ⟨missing, hfind⟩ := Option.isSome_iff_exists.mp hsome
  have hpred := List.find?_some hfind
  have hmmem := List.mem_of_find?_eq_some hfind
  refine ⟨missing, hfind, ?_, ?_⟩
  · intro st hst hid
    have hcont : ((fetchedSeats s (seatIdsOf items)).map
        (fun x => x.id)).contains missing = true := by
      refine contains_iff_mem.mpr (List.mem_map.mpr ⟨st, ?_, hid⟩)
      simp only [fetchedSeats]
      rw [List.mem_filter]
      refine ⟨hst, ?_⟩
      rw [hid]
      exact contains_iff_mem.mpr hmmem
    simp only [Bool.not_eq_true'] at hpred
    rw [hpred] at hcont
    exact Bool.false_ne_true hcont
  · rw [purchaseRoute_err400 s env eid items c e _ hne hev
      (purchaseTx_seatMissing s env eid items c hcap (Nat.ne_of_lt hlt))]
    rw [hfind]

/-- Witness for C4 (amended): the missing seat id SX at the demo store. -/
theorem claim4_missing_seat_witness :
    ∃ missing, (seatIdsOf [⟨"SX", "seat", "Z0", (10 : ℚ)⟩]).find?
        (fun i => !(((fetchedSeats demoSaleStore
          (seatIdsOf [⟨"SX", "seat", "Z0", (10 : ℚ)⟩])).map
          (fun st => st.id)).contains i)) = some missing
      ∧ (∀ st ∈ demoSaleStore.seats, st.id ≠ missing)
      ∧ purchaseRoute demoSaleStore demoEnv "E1"
          (some [⟨"SX", "seat", "Z0", 10⟩]) demoCust
          = (demoSaleStore, Response.err 400 (seatNotFoundMsg (some missing))) :=
  claim4_missing_seat demoSaleStore demoEnv "E1" [⟨"SX", "seat", "Z0", 10⟩]
    demoCust ⟨"E1"⟩ rfl rfl rfl (by decide) ⟨⟨"SX", "seat", "Z0", 10⟩,
      by decide, rfl, by decide⟩

/-! ### Claim C3 -/

/-- Counterexample to C3 as stated: a purchase containing a seat item whose
seat is already SOLD, together with a second seat item whose id has no row,
fails with the missing-seat message — not with a Conflict error naming the
sold seat row/column label as the claim requires.  Likewise a cart that
names the sold seat S2 twice: every requested id resolves, yet the length
check fires with no genuinely missing id and the purchase fails with
"Seat undefined not found" instead of the Conflict message, so the claim
also needs the requested seat ids pairwise distinct. -/
theorem claim3_counterexample :
    (∃ st ∈ demoSaleStore.seats, st.id = "S2" ∧ st.status = "SOLD"
      ∧ st.rowLabel = "B" ∧ st.colLabel = "2")
    ∧ purchaseRoute demoSaleStore demoEnv "E1"
        (some [⟨"S2", "seat", "Z0", 10⟩, ⟨"SX", "seat", "Z0", 10⟩]) demoCust
      = (demoSaleStore, Response.err 400 (seatNotFoundMsg (some "SX")))
    ∧ seatNotFoundMsg (some "SX") ≠ seatConflictMsg "B" "2"
    ∧ purchaseRoute demoSaleStore demoEnv "E1"
        (some [⟨"S2", "seat", "Z0", 10⟩, ⟨"S2", "seat", "Z0", 10⟩]) demoCust
      = (demoSaleStore, Response.err 400 (seatNotFoundMsg none))
    ∧ seatNotFoundMsg none ≠ seatConflictMsg "B" "2" := by
  refine ⟨by decide, ?_, by decide, ?_, by decide⟩
  · rw [purchaseRoute_err400 demoSaleStore demoEnv "E1"
        [⟨"S2", "seat", "Z0", 10⟩, ⟨"SX", "seat", "Z0", 10⟩] demoCust ⟨"E1"⟩ _ rfl rfl
        (purchaseTx_seatMissing demoSaleStore demoEnv "E1"
          [⟨"S2", "seat", "Z0", 10⟩, ⟨"SX", "seat", "Z0", 10⟩] demoCust rfl (by decide))]
    rfl
  · rw [purchaseRoute_err400 demoSaleStore demoEnv "E1"
        [⟨"S2", "seat", "Z0", 10⟩, ⟨"S2", "seat", "Z0", 10⟩] demoCust ⟨"E1"⟩ _ rfl rfl
        (purchaseTx_seatMissing demoSaleStore demoEnv "E1"
          [⟨"S2", "seat", "Z0", 10⟩, ⟨"S2", "seat", "Z0", 10⟩] demoCust rfl (by decide))]
    rfl

/-- C3 (amended): when the event exists, the capacity pre-check passes, the
requested seat ids are duplicate-free and each resolves to a Seat row (store
seat ids duplicate-free), and some fetched seat is not AVAILABLE, the whole
purchase fails with HTTP 400 and the Conflict message naming the row/column
label of the first unavailable fetched seat, and the store is returned
unchanged (no TicketPurchase row, no Ticket row, no seat update). -/
theorem claim3_seat_conflict (s : Store) (env : Nat → String) (eid : String)
    (items : List Item) (c : Customer) (e : Event)
    (hev : s.events.find? (fun x => x.id == eid) = some e)
    (hcap : capacityCheck s items = Except.ok ())
    (hnodup : (s.seats.map (fun st => st.id)).Nodup)
    (hids : (seatIdsOf items).Nodup)
    (hall : ∀ it ∈ items, it.type = "seat" → ∃ st ∈ s.seats, st.id = it.id)
    (hunav : ∃ st ∈ fetchedSeats s (seatIdsOf items), st.status ≠ "AVAILABLE") :
    ∃ u, (fetchedSeats s (seatIdsOf items)).find?
        (fun st => !(st.status == "AVAILABLE")) = some u
      ∧ u.status ≠ "AVAILABLE"
      ∧ purchaseRoute s env eid (some items) c
          = (s, Response.err 400 (seatConflictMsg u.rowLabel u.colLabel)) := by
  obtain ⟨st0, hst0, hst0st⟩ := hunav
  have hne : items.isEmpty = false := by
    have hst0f := hst0
    simp only [fetchedSeats] at hst0f
    have h1 : st0.id ∈ seatIdsOf items :=
      contains_iff_mem.mp (List.mem_filter.mp hst0f).2
    simp only [seatIdsOf] at h1
    obtain ⟨it, hitmem, -⟩ := List.mem_map.mp h1
    simp only [seatItemsOf] at hitmem
    have hmem : it ∈ items := List.mem_of_mem_filter hitmem
    cases items with
    | nil => exact absurd hmem (by simp)
    | cons a l => rfl
  have hall' : ∀ i ∈ seatIdsOf items, ∃ st ∈ s.seats, st.id = i := by
    intro i hi
    simp only [seatIdsOf] at hi
    obtain ⟨it, hitmem, hid⟩ := List.mem_map.mp hi
    simp only [seatItemsOf] at hitmem
    have h2 := List.mem_filter.mp hitmem
    subst hid
    exact hall it h2.1 (by simpa using h2.2)
  have hlen := fetchedSeats_length_eq s (seatIdsOf items) hnodup hids hall'
  have hsome : ((fetchedSeats s (seatIdsOf items)).find?
      (fun st => !(st.status == "AVAILABLE"))).isSome = true := by
    rw [List.find?_isSome]
    exact ⟨st0, hst0, by simpa using hst0st⟩
  obtain ⟨u, hfd⟩ := Option.isSome_iff_exists.mp hsome
  have hu := List.find?_some hfd
  refine ⟨u, hfd, by simpa using hu, ?_⟩
  rw [purchaseRoute_err400 s env eid items c e _ hne hev
    (purchaseTx_seatConflict s env eid items c u hcap hlen hfd)]

/-- Witness for C3 (amended): buying only the already-sold seat S2. -/
theorem claim3_seat_conflict_witness :
    ∃ u, (fetchedSeats demoSaleStore
        (seatIdsOf [⟨"S2", "seat", "Z0", (10 : ℚ)⟩])).find?
        (fun st => !(st.status == "AVAILABLE")) = some u
      ∧ u.status ≠ "AVAILABLE"
      ∧ purchaseRoute demoSaleStore demoEnv "E1"
          (some [⟨"S2", "seat", "Z0", 10⟩]) demoCust
          = (demoSaleStore, Response.err 400 (seatConflictMsg u.rowLabel u.colLabel)) :=
  claim3_seat_conflict demoSaleStore demoEnv "E1" [⟨"S2", "seat", "Z0", 10⟩]
    demoCust ⟨"E1"⟩ rfl rfl (by decide) (by decide) (by decide) (by decide)

/-! ### Bookkeeping lemmas for the zoneCounts grouping -/

/-- Lookup through one bump step. -/
theorem bumpZone_lookup (acc : List (String × Nat)) (z k : String) :
    (bumpZone acc z).lookup k
      = if k = z then some ((acc.lookup k).getD 0 + 1) else acc.lookup k := by
  induction acc with
  | nil =>
      by_cases h : k = z
      · subst h
        simp [bumpZone]
      · simp [bumpZone, List.lookup_cons, beq_eq_false_iff_ne.mpr h, h]
  | cons hd tl ih =>
      obtain ⟨k0, n0⟩ := hd
      by_cases h0 : k0 = z
      · subst h0
        simp only [bumpZone, if_pos rfl]
        by_cases h : k = k0
        · subst h
          simp
        · simp [List.lookup_cons, beq_eq_false_iff_ne.mpr h, h]
      · simp only [bumpZone, if_neg h0]
        by_cases h : k = k0
        · subst h
          have hz : ¬k = z := fun he => h0 he
          simp [List.lookup_cons, hz]
        · simp [List.lookup_cons, beq_eq_false_iff_ne.mpr h, h, ih]

/-- A lookup hit is a member. -/
theorem lookup_mem {l : List (String × Nat)} {k : String} {n : Nat}
    (h : l.lookup k = some n) : (k, n) ∈ l := by
  obtain ⟨l₁, l₂, rfl, -⟩ := List.lookup_eq_some_iff.mp h
  simp

/-- With duplicate-free keys, a member is the lookup result of its key. -/
theorem mem_lookup {l : List (String × Nat)} {k : String} {n : Nat}
    (hnd : (l.map Prod.fst).Nodup) (h : (k, n) ∈ l) : l.lookup k = some n := by
  induction l with
  | nil => simp at h
  | cons hd tl ih =>
      obtain ⟨k0, n0⟩ := hd
      simp only [List.map_cons, List.nodup_cons] at hnd
      rcases List.mem_cons.mp h with hh | hh
      · cases hh
        simp
      · have hk : ¬(k = k0) := by
          intro he
          subst he
          exact hnd.1 (List.mem_map.mpr ⟨(k, n), hh, rfl⟩)
        simp [List.lookup_cons, beq_eq_false_iff_ne.mpr hk, ih hnd.2 hh]

/-- Keys after one bump step: unchanged when present, appended when new. -/
theorem bumpZone_keys (acc : List (String × Nat)) (z : String) :
    (bumpZone acc z).map Prod.fst
      = if z ∈ acc.map Prod.fst then acc.map Prod.fst
        else acc.map Prod.fst ++ [z] := by
  induction acc with
  | nil => simp [bumpZone]
  | cons hd tl ih =>
      obtain ⟨k0, n0⟩ := hd
      by_cases h0 : k0 = z
      · subst h0
        simp [bumpZone]
      · have hz : ¬(z = k0) := fun he => h0 he.symm
        simp only [bumpZone, if_neg h0, List.map_cons, ih]
        by_cases hc : z ∈ tl.map Prod.fst
        · simp [hc, hz]
        · simp [hc, hz]

/-- One bump step preserves key uniqueness. -/
theorem bumpZone_keys_nodup (acc : List (String × Nat)) (z : String)
    (h : (acc.map Prod.fst).Nodup) : ((bumpZone acc z).map Prod.fst).Nodup := by
  rw [bumpZone_keys]
  by_cases hc : z ∈ acc.map Prod.fst
  · simpa [hc] using h
  · rw [if_neg hc]
    simpa [List.nodup_append, hc] using h

/-- One bump step keeps every count positive. -/
theorem bumpZone_pos (acc : List (String × Nat)) (z : String)
    (h : ∀ e ∈ acc, 0 < e.2) : ∀ e ∈ bumpZone acc z, 0 < e.2 := by
  induction acc with
  | nil =>
      intro e he
      simp only [bumpZone, List.mem_singleton] at he
      subst he
      simp
  | cons hd tl ih =>
      obtain ⟨k0, n0⟩ := hd
      intro e he
      by_cases h0 : k0 = z
      · subst h0
        simp only [bumpZone, if_pos rfl] at he
        rcases List.mem_cons.mp he with rfl | he'
        · simp
        · exact h e (List.mem_cons_of_mem _ he')
      · simp only [bumpZone, if_neg h0] at he
        rcases List.mem_cons.mp he with rfl | he'
        · exact h (k0, n0) (by simp)
        · exact ih (fun e' he'' => h e' (List.mem_cons_of_mem _ he'')) e he'

/-- The grouping fold, relative to an arbitrary accumulator: lookup counts
add the number of matching general items. -/
theorem zoneCounts_foldl_lookup (items : List Item) (zid : String) :
    ∀ acc : List (String × Nat),
    (((items.foldl (fun acc it =>
        if it.type == "general" then bumpZone acc it.zoneId else acc) acc).lookup
          zid).getD 0)
      = (acc.lookup zid).getD 0 + requestedGeneral items zid := by
  induction items with
  | nil => intro acc; simp [requestedGeneral]
  | cons it tl ih =>
      intro acc
      simp only [List.foldl_cons]
      by_cases ht : (it.type == "general") = true
      · rw [if_pos ht, ih, bumpZone_lookup]
        by_cases hz : zid = it.zoneId
        · subst hz
          have hstep : requestedGeneral (it :: tl) it.zoneId
              = requestedGeneral tl it.zoneId + 1 := by
            simp [requestedGeneral, List.filter_cons, ht]
          rw [hstep, if_pos rfl]
          simp only [Option.getD_some]
          omega
        · have hstep : requestedGeneral (it :: tl) zid = requestedGeneral tl zid := by
            have hne : ¬((it.zoneId == zid) = true) := by
              rw [beq_iff_eq]
              exact fun he => hz he.symm
            simp [requestedGeneral, List.filter_cons, hne]
          rw [hstep, if_neg hz]
      · rw [if_neg ht]
        have : requestedGeneral (it :: tl) zid = requestedGeneral tl zid := by
          simp [requestedGeneral, List.filter_cons, ht]
        rw [ih, this]

/-- The grouping has duplicate-free keys. -/
theorem zoneCountsList_keys_nodup (items : List Item) :
    ((zoneCountsList items).map Prod.fst).Nodup := by
  suffices h : ∀ acc : List (String × Nat), (acc.map Prod.fst).Nodup →
      (((items.foldl (fun acc it =>
        if it.type == "general" then bumpZone acc it.zoneId else acc) acc).map
          Prod.fst)).Nodup by
    exact h [] (by simp)
  induction items with
  | nil => intro acc h; simpa using h
  | cons it tl ih =>
      intro acc hacc
      simp only [List.foldl_cons]
      by_cases ht : (it.type == "general") = true
      · rw [if_pos ht]
        exact ih _ (bumpZone_keys_nodup acc it.zoneId hacc)
      · rw [if_neg ht]
        exact ih _ hacc

/-- Every grouped count is positive. -/
theorem zoneCountsList_pos (items : List Item) :
    ∀ e ∈ zoneCountsList items, 0 < e.2 := by
  suffices h : ∀ acc : List (String × Nat), (∀ e ∈ acc, 0 < e.2) →
      ∀ e ∈ items.foldl (fun acc it =>
        if it.type == "general" then bumpZone acc it.zoneId else acc) acc, 0 < e.2 by
    exact h [] (by simp)
  induction items with
  | nil => intro acc h; simpa using h
  | cons it tl ih =>
      intro acc hacc
      simp only [List.foldl_cons]
      by_cases ht : (it.type == "general") = true
      · rw [if_pos ht]
        exact ih _ (bumpZone_pos acc it.zoneId hacc)
      · rw [if_neg ht]
        exact ih _ hacc

/-- A zone with requested general items appears in the grouping with
exactly that count. -/
theorem zoneCountsList_lookup (items : List Item) (zid : String)
    (h : requestedGeneral items zid ≠ 0) :
    (zoneCountsList items).lookup zid = some (requestedGeneral items zid) := by
  have hc := zoneCounts_foldl_lookup items zid []
  simp only [List.lookup_nil, Option.getD_none, Nat.zero_add] at hc
  cases hl : (zoneCountsList items).lookup zid with
  | none =>
      simp only [zoneCountsList] at hl
      rw [hl] at hc
      simp at hc
      exact absurd hc.symm h
  | some n =>
      simp only [zoneCountsList] at hl
      rw [hl] at hc
      simp only [Option.getD_some] at hc
      rw [hc]

/-- Every entry of the grouping counts exactly the matching general
items. -/
theorem zoneCountsList_count (items : List Item) (zid : String) (cnt : Nat)
    (h : (zid, cnt) ∈ zoneCountsList items) : cnt = requestedGeneral items zid := by
  have hl := mem_lookup (zoneCountsList_keys_nodup items) h
  have hc := zoneCounts_foldl_lookup items zid []
  simp only [List.lookup_nil, Option.getD_none, Nat.zero_add] at hc
  simp only [zoneCountsList] at hl
  rw [hl] at hc
  simpa using hc

/-- Every entry of the grouping stems from a general item of the cart. -/
theorem zoneCountsList_src (items : List Item) (zid : String) (cnt : Nat)
    (h : (zid, cnt) ∈ zoneCountsList items) :
    ∃ it ∈ items, it.type = "general" ∧ it.zoneId = zid := by
  have hcnt := zoneCountsList_count items zid cnt h
  have hpos := zoneCountsList_pos items (zid, cnt) h
  have hne : (items.filter (fun i => i.type == "general" && i.zoneId == zid)) ≠ [] := by
    intro h0
    rw [requestedGeneral, h0] at hcnt
    simp at hcnt
    omega
  obtain ⟨it, hit⟩ := List.exists_mem_of_ne_nil _ hne
  have hm := List.mem_filter.mp hit
  have hp := hm.2
  simp only [Bool.and_eq_true, beq_iff_eq] at hp
  exact ⟨it, hm.1, hp.1, hp.2⟩

/-! ### Capacity pre-check loop lemmas -/

/-- One step of the pre-check loop when the zone is found. -/
theorem capacityCheckGo_cons_found (s : Store) (zid : String) (cnt : Nat)
    (rest : List (String × Nat)) (z : Zone)
    (hz : s.zones.find? (fun x => x.id == zid) = some z) :
    capacityCheckGo s ((zid, cnt) :: rest)
      = (match z.capacity with
         | some cap =>
            if cap < (ticketCountZone s zid : ℤ) + cnt then
              Except.error (capacityMsg z.name
                (max 0 (cap - ticketCountZone s zid)) cnt)
            else capacityCheckGo s rest
         | none => capacityCheckGo s rest) := by
  simp only [capacityCheckGo]
  rw [hz]

/-- One step of the pre-check loop when the zone is absent. -/
theorem capacityCheckGo_cons_notFound (s : Store) (zid : String) (cnt : Nat)
    (rest : List (String × Nat))
    (hz : s.zones.find? (fun x => x.id == zid) = none) :
    capacityCheckGo s ((zid, cnt) :: rest)
      = Except.error (zoneNotFoundMsg zid) := by
  simp only [capacityCheckGo]
  rw [hz]

/-- A violating head entry aborts the loop with the capacity message. -/
theorem capacityCheckGo_cons_viol (s : Store) (zid : String) (cnt : Nat)
    (rest : List (String × Nat)) (z : Zone) (cap : ℤ)
    (hz : s.zones.find? (fun x => x.id == zid) = some z)
    (hcap : z.capacity = some cap)
    (hlt : cap < (ticketCountZone s zid : ℤ) + cnt) :
    capacityCheckGo s ((zid, cnt) :: rest)
      = Except.error (capacityMsg z.name
          (max 0 (cap - ticketCountZone s zid)) cnt) := by
  rw [capacityCheckGo_cons_found s zid cnt rest z hz, hcap]
  show ite _ _ _ = _
  rw [if_pos hlt]

/-- A satisfied head entry passes the loop on to the tail. -/
theorem capacityCheckGo_cons_pass (s : Store) (zid : String) (cnt : Nat)
    (rest : List (String × Nat)) (z : Zone)
    (hz : s.zones.find? (fun x => x.id == zid) = some z)
    (hok : ∀ cap, z.capacity = some cap → ¬cap < (ticketCountZone s zid : ℤ) + cnt) :
    capacityCheckGo s ((zid, cnt) :: rest) = capacityCheckGo s rest := by
  rw [capacityCheckGo_cons_found s zid cnt rest z hz]
  cases hc : z.capacity with
  | none => rfl
  | some cap =>
      show ite _ _ _ = _
      rw [if_neg (hok cap hc)]

/-- A passing pre-check loop bounds every entry against its zone
capacity. -/
theorem capacityCheckGo_ok (s : Store) (l : List (String × Nat))
    (h : capacityCheckGo s l = Except.ok ()) :
    ∀ zc ∈ l, ∀ z, s.zones.find? (fun x => x.id == zc.1) = some z →
      ∀ cap, z.capacity = some cap →
        (ticketCountZone s zc.1 : ℤ) + zc.2 ≤ cap := by
  induction l with
  | nil => intro zc h'; simp at h'
  | cons hd tl ih =>
      obtain ⟨zid, cnt⟩ := hd
      intro zc hmem z hz cap hcap
      simp only [capacityCheckGo] at h
      split at h
      · exact Except.noConfusion h
      · rename_i z0 heq
        split at h
        · rename_i cap0 hcap0
          split at h
          · exact Except.noConfusion h
          · rename_i hnlt
            rcases List.mem_cons.mp hmem with rfl | hmem'
            · have hz0 : z = z0 := by
                rw [heq] at hz
                exact (Option.some.inj hz).symm
              subst hz0
              rw [hcap0] at hcap
              cases hcap
              exact Int.not_lt.mp hnlt
            · exact ih h zc hmem' z hz cap hcap
        · rename_i hcap0
          rcases List.mem_cons.mp hmem with rfl | hmem'
          · have hz0 : z = z0 := by
              rw [heq] at hz
              exact (Option.some.inj hz).symm
            subst hz0
            rw [hcap0] at hcap
            exact Option.noConfusion hcap
          · exact ih h zc hmem' z hz cap hcap

/-- An existing violating entry makes the pre-check loop abort with the
capacity message of some violating entry (the first one in loop order). -/
theorem capacityCheckGo_err (s : Store) (l : List (String × Nat))
    (hzex : ∀ zc ∈ l, ∃ z, s.zones.find? (fun x => x.id == zc.1) = some z)
    (hviol : ∃ zc ∈ l, ∃ z cap, s.zones.find? (fun x => x.id == zc.1) = some z
      ∧ z.capacity = some cap ∧ cap < (ticketCountZone s zc.1 : ℤ) + zc.2) :
    ∃ zc ∈ l, ∃ z cap, s.zones.find? (fun x => x.id == zc.1) = some z
      ∧ z.capacity = some cap ∧ cap < (ticketCountZone s zc.1 : ℤ) + zc.2
      ∧ capacityCheckGo s l = Except.error
          (capacityMsg z.name (max 0 (cap - ticketCountZone s zc.1)) zc.2) := by
  induction l with
  | nil =>
      obtain ⟨zc, hmem, -⟩ := hviol
      simp at hmem
  | cons hd tl ih =>
      obtain ⟨zid, cnt⟩ := hd
      obtain ⟨z0, hz0⟩ := hzex (zid, cnt) (by simp)
      by_cases hv : ∃ cap, z0.capacity = some cap
          ∧ cap < (ticketCountZone s zid : ℤ) + cnt
      · obtain ⟨cap, hC, hlt⟩ := hv
        exact ⟨(zid, cnt), by simp, z0, cap, hz0, hC, hlt,
          capacityCheckGo_cons_viol s zid cnt tl z0 cap hz0 hC hlt⟩
      · push_neg at hv
        have hpass := capacityCheckGo_cons_pass s zid cnt tl z0 hz0
          (fun cap hc => not_lt.mpr (hv cap hc))
        have hviol' : ∃ zc ∈ tl, ∃ z cap,
            s.zones.find? (fun x => x.id == zc.1) = some z
            ∧ z.capacity = some cap
            ∧ cap < (ticketCountZone s zc.1 : ℤ) + zc.2 := by
          obtain ⟨zc, hmem, z, cap, hz, hC, hlt⟩ := hviol
          rcases List.mem_cons.mp hmem with rfl | hmem'
          · have hzz : z = z0 := by
              rw [hz0] at hz
              exact (Option.some.inj hz).symm
            subst hzz
            exact absurd hlt (not_lt.mpr (hv cap hC))
          · exact ⟨zc, hmem', z, cap, hz, hC, hlt⟩
        obtain ⟨zc, hmem, z, cap, h1, h2, h3, h4⟩ :=
          ih (fun zc hm => hzex zc (List.mem_cons_of_mem _ hm)) hviol'
        exact ⟨zc, List.mem_cons_of_mem _ hmem, z, cap, h1, h2, h3,
          by rw [hpass]; exact h4⟩

/-! ### Claim C2 -/

/-- Counterexample to C2 as stated: the pre-check counts a CANCELLED ticket
as sold.  With one cancelled ticket in a capacity-one zone, the count of
already-sold non-cancelled tickets plus the request fits the capacity, yet
the purchase aborts with the Capacity error, because the read
(`_count.tickets`) counts tickets of every status. -/
theorem claim2_counterexample :
    noncancelledCountZone demoCancelStore "Z1" + 1 ≤ 1
    ∧ purchaseRoute demoCancelStore demoEnv "E1"
        (some [⟨"g1", "general", "Z1", 10⟩]) demoCust
      = (demoCancelStore, Response.err 400 (capacityMsg "VIP" 0 1)) := by
  refine ⟨by decide, ?_⟩
  rw [purchaseRoute_err400 demoCancelStore demoEnv "E1"
      [⟨"g1", "general", "Z1", 10⟩] demoCust ⟨"E1"⟩ _ rfl rfl
      (purchaseTx_capErr demoCancelStore demoEnv "E1"
        [⟨"g1", "general", "Z1", 10⟩] demoCust (capacityMsg "VIP" 0 1) rfl)]

/-- C2 (amended): the pre-check groups the general-type items by zone id
and reads each referenced zone together with its count of tickets of every
status (cancelled included); if, for some referenced zone with non-null
capacity, that all-status count plus the grouped request exceeds the
capacity, the whole transaction aborts with the Capacity error naming a
violating zone, its remaining count, and its requested count, and the
store is returned unchanged — partial acceptance never occurs. -/
theorem claim2_capacity_abort (s : Store) (env : Nat → String) (eid : String)
    (items : List Item) (c : Customer) (e : Event)
    (hne : items.isEmpty = false)
    (hev : s.events.find? (fun x => x.id == eid) = some e)
    (hzex : ∀ it ∈ items, it.type = "general" →
      ∃ z, s.zones.find? (fun x => x.id == it.zoneId) = some z)
    (hviol : ∃ it ∈ items, it.type = "general" ∧ ∃ z cap,
      s.zones.find? (fun x => x.id == it.zoneId) = some z
      ∧ z.capacity = some cap
      ∧ cap < (ticketCountZone s it.zoneId : ℤ) + requestedGeneral items it.zoneId) :
    ∃ zid z cap, s.zones.find? (fun x => x.id == zid) = some z
      ∧ z.capacity = some cap
      ∧ cap < (ticketCountZone s zid : ℤ) + requestedGeneral items zid
      ∧ purchaseRoute s env eid (some items) c
        = (s, Response.err 400 (capacityMsg z.name
            (max 0 (cap - ticketCountZone s zid)) (requestedGeneral items zid))) := by
  have hzexE : ∀ zc ∈ zoneCountsList items,
      ∃ z, s.zones.find? (fun x => x.id == zc.1) = some z := by
    intro zc hzc
    obtain ⟨it, hitmem, htype, hzid⟩ :=
      zoneCountsList_src items zc.1 zc.2 (by simpa using hzc)
    rw [← hzid]
    exact hzex it hitmem htype
  have hviolE : ∃ zc ∈ zoneCountsList items, ∃ z cap,
      s.zones.find? (fun x => x.id == zc.1) = some z
      ∧ z.capacity = some cap
      ∧ cap < (ticketCountZone s zc.1 : ℤ) + zc.2 := by
    obtain ⟨it, hitmem, htype, z, cap, hz, hC, hlt⟩ := hviol
    have hreqne : requestedGeneral items it.zoneId ≠ 0 := by
      have hmem : it ∈ items.filter
          (fun i => i.type == "general" && i.zoneId == it.zoneId) :=
        List.mem_filter.mpr ⟨hitmem, by simp [htype]⟩
      have := List.ne_nil_of_mem hmem
      simp only [requestedGeneral]
      intro h0
      exact this (List.length_eq_zero.mp h0)
    exact ⟨(it.zoneId, requestedGeneral items it.zoneId),
      lookup_mem (zoneCountsList_lookup items it.zoneId hreqne),
      z, cap, hz, hC, hlt⟩
  obtain ⟨zc, hmem, z, cap, h1, h2, h3, h4⟩ :=
    capacityCheckGo_err s (zoneCountsList items) hzexE hviolE
  have hcnt : zc.2 = requestedGeneral items zc.1 :=
    zoneCountsList_count items zc.1 zc.2 (by simpa using hmem)
  refine ⟨zc.1, z, cap, h1, h2, ?_, ?_⟩
  · rw [← hcnt]
    exact h3
  · rw [purchaseRoute_err400 s env eid items c e _ hne hev
      (purchaseTx_capErr s env eid items c _ h4)]
    rw [hcnt]

/-- Witness for C2 (amended): one general item in the already-full
capacity-one zone of the cancelled-ticket store. -/
theorem claim2_capacity_abort_witness :
    ∃ zid z cap, demoCancelStore.zones.find? (fun x => x.id == zid) = some z
      ∧ z.capacity = some cap
      ∧ cap < (ticketCountZone demoCancelStore zid : ℤ)
          + requestedGeneral [⟨"g1", "general", "Z1", (10 : ℚ)⟩] zid
      ∧ purchaseRoute demoCancelStore demoEnv "E1"
          (some [⟨"g1", "general", "Z1", 10⟩]) demoCust
        = (demoCancelStore, Response.err 400 (capacityMsg z.name
            (max 0 (cap - ticketCountZone demoCancelStore zid))
            (requestedGeneral [⟨"g1", "general", "Z1", (10 : ℚ)⟩] zid))) :=
  claim2_capacity_abort demoCancelStore demoEnv "E1"
    [⟨"g1", "general", "Z1", 10⟩] demoCust ⟨"E1"⟩ rfl rfl
    (by
      intro it hit ht
      rw [List.mem_singleton] at hit
      subst hit
      exact ⟨⟨"Z1", "E1", "VIP", some 1⟩, rfl⟩)
    ⟨⟨"g1", "general", "Z1", 10⟩, by decide, rfl,
      ⟨"Z1", "E1", "VIP", some 1⟩, 1, rfl, rfl, by decide⟩

/-! ### Ticket-count lemmas for the committed purchase state -/

/-- Tickets built from enumerated items, counted by zone: one per item with
that zone id. -/
theorem enum_tickets_zone_count (l : List Item) (f : Nat × Item → Ticket)
    (zid : String) (hzone : ∀ ki, (f ki).zoneId = ki.2.zoneId) :
    ((l.enum.map f).filter (fun t => t.zoneId == zid)).length
      = (l.filter (fun i => i.zoneId == zid)).length := by
  rw [← List.countP_eq_length_filter, ← List.countP_eq_length_filter,
    List.countP_map]
  have h1 : List.countP ((fun t => t.zoneId == zid) ∘ f) l.enum
      = List.countP ((fun i => i.zoneId == zid) ∘ Prod.snd) l.enum := by
    refine List.countP_congr ?_
    intro ki hki
    simp [Function.comp, hzone ki]
  rw [h1, ← List.countP_map, List.enum_map_snd]

/-- Tickets built from enumerated VALID-status items survive the
non-cancelled filter unchanged. -/
theorem enum_tickets_noncancelled (l : List Item) (f : Nat × Item → Ticket)
    (zid : String) (hstatus : ∀ ki, (f ki).status = "VALID") :
    (((l.enum.map f).filter (fun t => t.zoneId == zid)).filter
        (fun t => !(t.status == "CANCELLED"))).length
      = ((l.enum.map f).filter (fun t => t.zoneId == zid)).length := by
  rw [← List.countP_eq_length_filter, ← List.countP_eq_length_filter]
  rw [List.countP_filter]
  refine List.countP_congr ?_
  intro t ht
  rcases List.mem_map.mp ht with ⟨ki, -, rfl⟩
  simp [hstatus ki]

/-- All-status zone ticket count of the committed purchase state. -/
theorem applyPurchase_ticketCount (s : Store) (env : Nat → String)
    (eid : String) (items : List Item) (c : Customer) (zid : String) :
    ticketCountZone (applyPurchase s env eid items c).1 zid
      = ticketCountZone s zid
        + ((seatItemsOf items).filter (fun i => i.zoneId == zid)).length
        + ((generalItemsOf items).filter (fun i => i.zoneId == zid)).length := by
  have ht : (applyPurchase s env eid items c).1.tickets
      = s.tickets ++ (applyPurchase s env eid items c).2 :=
    applyPurchase_tickets s env eid items c
  rw [ticketCountZone, ht, applyPurchase_snd, List.filter_append,
    List.filter_append, List.length_append, List.length_append]
  rw [enum_tickets_zone_count _ _ zid (fun ki => rfl),
    enum_tickets_zone_count _ _ zid (fun ki => rfl)]
  simp only [ticketCountZone]
  omega

/-- Non-cancelled zone ticket count of the committed purchase state. -/
theorem applyPurchase_noncancelled (s : Store) (env : Nat → String)
    (eid : String) (items : List Item) (c : Customer) (zid : String) :
    noncancelledCountZone (applyPurchase s env eid items c).1 zid
      = noncancelledCountZone s zid
        + ((seatItemsOf items).filter (fun i => i.zoneId == zid)).length
        + ((generalItemsOf items).filter (fun i => i.zoneId == zid)).length := by
  have ht : (applyPurchase s env eid items c).1.tickets
      = s.tickets ++ (applyPurchase s env eid items c).2 :=
    applyPurchase_tickets s env eid items c
  rw [noncancelledCountZone, ht, applyPurchase_snd, List.filter_append,
    List.filter_append, List.filter_append, List.filter_append,
    List.length_append, List.length_append]
  rw [enum_tickets_noncancelled _ _ zid (fun ki => rfl),
    enum_tickets_noncancelled _ _ zid (fun ki => rfl)]
  rw [enum_tickets_zone_count _ _ zid (fun ki => rfl),
    enum_tickets_zone_count _ _ zid (fun ki => rfl)]
  simp only [noncancelledCountZone]
  omega

/-- The non-cancelled count never exceeds the all-status count. -/
theorem noncancelled_le_ticketCount (s : Store) (zid : String) :
    noncancelledCountZone s zid ≤ ticketCountZone s zid :=
  List.length_filter_le _ _

/-! ### Purchase step lemmas for the capacity invariant -/

/-- Fetching no seat ids returns no rows. -/
theorem fetchedSeats_nil (s : Store) : fetchedSeats s [] = [] := by
  simp [fetchedSeats]


/-- One purchase step preserves the per-zone non-cancelled bound for a
capacity-bounded zone that only general-type items reference, and never
touches the zone or event tables. -/
theorem purchase_step_capacity (s : Store) (env : Nat → String) (eid : String)
    (items? : Option (List Item)) (c : Customer)
    (zid : String) (z : Zone) (cap : ℤ)
    (hz : s.zones.find? (fun x => x.id == zid) = some z)
    (hcap : z.capacity = some cap)
    (hgen : ∀ it ∈ items?.getD [], it.zoneId = zid → it.type = "general")
    (hinv : (noncancelledCountZone s zid : ℤ) ≤ cap) :
    (noncancelledCountZone (purchaseRoute s env eid items? c).1 zid : ℤ) ≤ cap
    ∧ (purchaseRoute s env eid items? c).1.zones = s.zones
    ∧ (purchaseRoute s env eid items? c).1.events = s.events := by
  cases hok : ((purchaseRoute s env eid items? c).2).isOk with
  | false =>
      rw [purchaseRoute_fail_fst s env eid items? c hok]
      exact ⟨hinv, rfl, rfl⟩
  | true =>
      cases items? with
      | none => simp [purchaseRoute, Response.isOk] at hok
      | some items =>
          obtain ⟨heq, hcapok, -, -⟩ := purchaseRoute_ok s env eid items c hok
          rw [heq]
          refine ⟨?_, applyPurchase_zones s env eid items c,
            applyPurchase_events s env eid items c⟩
          rw [applyPurchase_noncancelled s env eid items c zid]
          have hseat0 : ((seatItemsOf items).filter
              (fun i => i.zoneId == zid)).length = 0 := by
            rw [List.length_eq_zero, List.eq_nil_iff_forall_not_mem]
            intro i hi
            have h1 := List.mem_filter.mp hi
            have h2 := List.mem_filter.mp h1.1
            have hty : i.type = "seat" := by simpa using h2.2
            have hzid : i.zoneId = zid := by simpa using h1.2
            have := hgen i (by simpa using h2.1) hzid
            rw [hty] at this
            exact absurd this (by decide)
          rw [hseat0]
          have hgeq : ((generalItemsOf items).filter
              (fun i => i.zoneId == zid)).length = requestedGeneral items zid := by
            rw [generalItemsOf, requestedGeneral, List.filter_filter,
              ← List.countP_eq_length_filter, ← List.countP_eq_length_filter]
            refine List.countP_congr ?_
            intro i hi
            constructor
            · intro h
              simp only [Bool.and_eq_true] at h ⊢
              exact ⟨h.2, h.1⟩
            · intro h
              simp only [Bool.and_eq_true] at h ⊢
              exact ⟨h.2, h.1⟩
          rw [hgeq]
          by_cases hzero : requestedGeneral items zid = 0
          · rw [hzero]
            simpa using hinv
          · have hmem := lookup_mem (zoneCountsList_lookup items zid hzero)
            have hbound := capacityCheckGo_ok s (zoneCountsList items)
              (by simpa [capacityCheck] using hcapok)
              (zid, requestedGeneral items zid) hmem z hz cap hcap
            have hle := noncancelled_le_ticketCount s zid
            push_cast
            push_cast at hbound hinv
            omega

/-- A purchase of exactly one general item for a capacity-bounded zone:
either the zone is full and the request fails with the Capacity message, or
it succeeds and the zone all-status ticket count grows by exactly one, the
zone and event tables unchanged. -/
theorem purchaseRoute_single_general (s : Store) (env : Nat → String)
    (eid : String) (c : Customer) (i : String) (p : ℚ) (zid : String)
    (z : Zone) (cap : ℤ)
    (hev : (s.events.find? (fun x => x.id == eid)).isSome = true)
    (hz : s.zones.find? (fun x => x.id == zid) = some z)
    (hcap : z.capacity = some cap) :
    (cap < (ticketCountZone s zid : ℤ) + 1 →
      purchaseRoute s env eid (some [⟨i, "general", zid, p⟩]) c
        = (s, Response.err 400 (capacityMsg z.name
            (max 0 (cap - ticketCountZone s zid)) 1)))
    ∧ (¬cap < (ticketCountZone s zid : ℤ) + 1 →
      ((purchaseRoute s env eid (some [⟨i, "general", zid, p⟩]) c).2.isOk = true
        ∧ ticketCountZone (purchaseRoute s env eid
            (some [⟨i, "general", zid, p⟩]) c).1 zid = ticketCountZone s zid + 1
        ∧ (purchaseRoute s env eid (some [⟨i, "general", zid, p⟩]) c).1.zones
            = s.zones
        ∧ (purchaseRoute s env eid (some [⟨i, "general", zid, p⟩]) c).1.events
            = s.events)) := by
  obtain ⟨e, he⟩ := Option.isSome_iff_exists.mp hev
  have hcounts : zoneCountsList [⟨i, "general", zid, p⟩] = [(zid, 1)] := rfl
  constructor
  · intro hfull
    have herr : capacityCheck s [⟨i, "general", zid, p⟩]
        = Except.error (capacityMsg z.name
            (max 0 (cap - ticketCountZone s zid)) 1) := by
      rw [capacityCheck, hcounts]
      exact capacityCheckGo_cons_viol s zid 1 [] z cap hz hcap (by push_cast; omega)
    exact purchaseRoute_err400 s env eid [⟨i, "general", zid, p⟩] c e _ rfl he
      (purchaseTx_capErr s env eid [⟨i, "general", zid, p⟩] c _ herr)
  · intro hfit
    have hok : capacityCheck s [⟨i, "general", zid, p⟩] = Except.ok () := by
      rw [capacityCheck, hcounts]
      rw [capacityCheckGo_cons_pass s zid 1 [] z hz]
      · rfl
      · intro cap' hc'
        rw [hcap] at hc'
        cases hc'
        push_cast
        omega
    have hnilids : seatIdsOf [⟨i, "general", zid, p⟩] = [] := rfl
    have hroute := purchaseRoute_ok_eq s env eid [⟨i, "general", zid, p⟩] c e
      rfl he hok (by rw [hnilids, fetchedSeats_nil]; rfl)
      (by rw [hnilids, fetchedSeats_nil]; rfl)
    rw [hroute]
    refine ⟨rfl, ?_, applyPurchase_zones s env eid _ c,
      applyPurchase_events s env eid _ c⟩
    rw [applyPurchase_ticketCount s env eid _ c zid]
    have h1 : seatItemsOf [⟨i, "general", zid, p⟩] = [] := rfl
    have h2 : generalItemsOf [⟨i, "general", zid, p⟩]
        = [⟨i, "general", zid, p⟩] := rfl
    rw [h1, h2]
    simp [List.filter_cons]

/-- Part (a) of the amended capacity invariant: over any request sequence
whose items reference the zone only with general-type items, the
non-cancelled bound of a capacity-bounded zone is preserved. -/
theorem runPurchases_capacity (reqs : List PReq) :
    ∀ (s : Store) (zid : String) (z : Zone) (cap : ℤ),
    s.zones.find? (fun x => x.id == zid) = some z →
    z.capacity = some cap →
    (∀ r ∈ reqs, ∀ it ∈ r.items.getD [], it.zoneId = zid → it.type = "general") →
    (noncancelledCountZone s zid : ℤ) ≤ cap →
    (noncancelledCountZone (runPurchases s reqs).1 zid : ℤ) ≤ cap := by
  induction reqs with
  | nil =>
      intro s zid z cap hz hcap hgen hinv
      exact hinv
  | cons r rs ih =>
      intro s zid z cap hz hcap hgen hinv
      obtain ⟨hinv', hzones, -⟩ := purchase_step_capacity s r.env r.eventId
        r.items r.customer zid z cap hz hcap (hgen r (by simp)) hinv
      simp only [runPurchases]
      exact ih (purchaseRoute s r.env r.eventId r.items r.customer).1 zid z cap
        (by rw [hzones]; exact hz) hcap
        (fun r' hr' => hgen r' (List.mem_cons_of_mem _ hr')) hinv'

/-- Part (b) of the amended capacity invariant: when every request asks for
exactly one general slot of a capacity-bounded zone of an existing event,
at most the available count of them succeed and every other response is a
Capacity error naming the zone. -/
theorem runPurchases_lastSlot (reqs : List PReq) :
    ∀ (s : Store) (eid : String) (zid : String) (z : Zone) (cap : ℤ),
    (s.events.find? (fun x => x.id == eid)).isSome = true →
    s.zones.find? (fun x => x.id == zid) = some z →
    z.capacity = some cap →
    (∀ r ∈ reqs, r.eventId = eid
      ∧ ∃ i p, r.items = some [⟨i, "general", zid, p⟩]) →
    (((runPurchases s reqs).2.filter Response.isOk).length : ℤ)
        ≤ max 0 (cap - ticketCountZone s zid)
    ∧ ∀ resp ∈ (runPurchases s reqs).2, Response.isOk resp = true
        ∨ ∃ rem, resp = Response.err 400 (capacityMsg z.name rem 1) := by
  induction reqs with
  | nil =>
      intro s eid zid z cap hev hz hcap hreq
      constructor
      · simp [runPurchases]
      · intro resp hresp
        simp [runPurchases] at hresp
  | cons r rs ih =>
      intro s eid zid z cap hev hz hcap hreq
      obtain ⟨heid, i, p, hitems⟩ := hreq r (by simp)
      have hstep := purchaseRoute_single_general s r.env eid r.customer i p zid
        z cap hev hz hcap
      simp only [runPurchases, heid, hitems]
      by_cases hfull : cap < (ticketCountZone s zid : ℤ) + 1
      · have herr := hstep.1 hfull
        rw [herr]
        have hrest := ih s eid zid z cap hev hz hcap
          (fun r' hr' => hreq r' (List.mem_cons_of_mem _ hr'))
        constructor
        · rw [List.filter_cons]
          simp only [Response.isOk, if_neg (by simp : ¬(false = true))]
          exact hrest.1
        · intro resp hresp
          rcases List.mem_cons.mp hresp with rfl | hresp'
          · exact Or.inr ⟨max 0 (cap - ticketCountZone s zid), rfl⟩
          · exact hrest.2 resp hresp'
      · obtain ⟨hok, hcount, hzones, hevents⟩ := hstep.2 hfull
        have hrest := ih (purchaseRoute s r.env eid
            (some [⟨i, "general", zid, p⟩]) r.customer).1 eid zid z cap
          (by rw [hevents]; exact hev) (by rw [hzones]; exact hz) hcap
          (fun r' hr' => hreq r' (List.mem_cons_of_mem _ hr'))
        constructor
        · rw [List.filter_cons, if_pos hok]
          simp only [List.length_cons]
          have h1 := hrest.1
          rw [hcount] at h1
          have hmax : max 0 (cap - (ticketCountZone s zid : ℤ))
              = cap - ticketCountZone s zid := by
            rw [max_eq_right]
            omega
          rw [hmax]
          have hmax2 : max 0 (cap - ((ticketCountZone s zid : ℤ) + 1))
              = max 0 (cap - (ticketCountZone s zid : ℤ) - 1) := by
            congr 1
            omega
          push_cast at h1 ⊢
          omega
        · intro resp hresp
          rcases List.mem_cons.mp hresp with rfl | hresp'
          · exact Or.inl hok
          · exact hrest.2 resp hresp'

/-! ### Claim C1 -/

/-- Counterexample to C1 as stated: a committed purchase of a seat item
whose cart entry references the zero-capacity zone Z0 succeeds (the
capacity pre-check inspects only general-type items), leaving one
non-cancelled ticket against a zone of capacity 0. -/
theorem claim1_counterexample :
    (⟨"Z0", "E1", "Zero", some 0⟩ : Zone) ∈ demoSaleStore.zones
    ∧ noncancelledCountZone demoSaleStore "Z0" = 0
    ∧ ((runPurchases demoSaleStore
        [⟨demoEnv, "E1", some [⟨"S1", "seat", "Z0", 10⟩], demoCust⟩]).2.map
          Response.isOk) = [true]
    ∧ noncancelledCountZone (runPurchases demoSaleStore
        [⟨demoEnv, "E1", some [⟨"S1", "seat", "Z0", 10⟩], demoCust⟩]).1 "Z0"
      = 1 := by
  refine ⟨by decide, by decide, by decide, by decide⟩

/-- C1 (amended): (a) for every zone with non-null capacity, over any
sequence of committed purchases in which every cart item referencing that
zone is of general type, the count of non-cancelled tickets referencing the
zone never exceeds the capacity, provided it did not initially; (b) when
the requests each ask for exactly one general slot of that zone, at most
the available count of them succeed and every non-successful response is a
Capacity error naming the zone.  (Seat-type items referencing the zone are
excluded: the pre-check inspects only general items, so a seat cart entry
can push a zone past its capacity.) -/
theorem claim1_capacity_invariant :
    (∀ (reqs : List PReq) (s : Store) (zid : String) (z : Zone) (cap : ℤ),
      s.zones.find? (fun x => x.id == zid) = some z →
      z.capacity = some cap →
      (∀ r ∈ reqs, ∀ it ∈ r.items.getD [], it.zoneId = zid →
        it.type = "general") →
      (noncancelledCountZone s zid : ℤ) ≤ cap →
      (noncancelledCountZone (runPurchases s reqs).1 zid : ℤ) ≤ cap)
    ∧ (∀ (reqs : List PReq) (s : Store) (eid zid : String) (z : Zone) (cap : ℤ),
      (s.events.find? (fun x => x.id == eid)).isSome = true →
      s.zones.find? (fun x => x.id == zid) = some z →
      z.capacity = some cap →
      (∀ r ∈ reqs, r.eventId = eid
        ∧ ∃ i p, r.items = some [⟨i, "general", zid, p⟩]) →
      (((runPurchases s reqs).2.filter Response.isOk).length : ℤ)
          ≤ max 0 (cap - ticketCountZone s zid)
      ∧ ∀ resp ∈ (runPurchases s reqs).2, Response.isOk resp = true
          ∨ ∃ rem, resp = Response.err 400 (capacityMsg z.name rem 1)) :=
  ⟨fun reqs s zid z cap hz hcap hgen hinv =>
      runPurchases_capacity reqs s zid z cap hz hcap hgen hinv,
    fun reqs s eid zid z cap hev hz hcap hreq =>
      runPurchases_lastSlot reqs s eid zid z cap hev hz hcap hreq⟩

/-- Witness for C1 (amended): two sequential one-slot requests against the
capacity-one zone Z1 starting from an empty ticket table. -/
theorem claim1_capacity_invariant_witness :
    ((noncancelledCountZone (runPurchases demoSaleStore
        [⟨demoEnv, "E1", some [⟨"g", "general", "Z1", 10⟩], demoCust⟩,
         ⟨demoEnv, "E1", some [⟨"g", "general", "Z1", 10⟩], demoCust⟩]).1
          "Z1" : ℤ) ≤ 1)
    ∧ ((((runPurchases demoSaleStore
        [⟨demoEnv, "E1", some [⟨"g", "general", "Z1", 10⟩], demoCust⟩,
         ⟨demoEnv, "E1", some [⟨"g", "general", "Z1", 10⟩], demoCust⟩]).2.filter
          Response.isOk).length : ℤ)
        ≤ max 0 (1 - ticketCountZone demoSaleStore "Z1")
      ∧ ∀ resp ∈ (runPurchases demoSaleStore
          [⟨demoEnv, "E1", some [⟨"g", "general", "Z1", 10⟩], demoCust⟩,
           ⟨demoEnv, "E1", some [⟨"g", "general", "Z1", 10⟩], demoCust⟩]).2,
          Response.isOk resp = true
          ∨ ∃ rem, resp = Response.err 400 (capacityMsg "VIP" rem 1)) :=
  ⟨claim1_capacity_invariant.1
      [⟨demoEnv, "E1", some [⟨"g", "general", "Z1", 10⟩], demoCust⟩,
       ⟨demoEnv, "E1", some [⟨"g", "general", "Z1", 10⟩], demoCust⟩]
      demoSaleStore "Z1" ⟨"Z1", "E1", "VIP", some 1⟩ 1 rfl rfl
      (by
        intro r hr
        rcases List.mem_cons.mp hr with rfl | hr'
        · intro it hit hz
          have hit' : it ∈ [(⟨"g", "general", "Z1", 10⟩ : Item)] := hit
          rw [List.mem_singleton] at hit'
          subst hit'
          rfl
        · rcases List.mem_cons.mp hr' with rfl | h0
          · intro it hit hz
            have hit' : it ∈ [(⟨"g", "general", "Z1", 10⟩ : Item)] := hit
            rw [List.mem_singleton] at hit'
            subst hit'
            rfl
          · exact absurd h0 (by simp))
      (by decide),
    claim1_capacity_invariant.2
      [⟨demoEnv, "E1", some [⟨"g", "general", "Z1", 10⟩], demoCust⟩,
       ⟨demoEnv, "E1", some [⟨"g", "general", "Z1", 10⟩], demoCust⟩]
      demoSaleStore "E1" "Z1" ⟨"Z1", "E1", "VIP", some 1⟩ 1 rfl rfl rfl
      (by
        intro r hr
        rcases List.mem_cons.mp hr with rfl | hr'
        · exact ⟨rfl, "g", 10, rfl⟩
        · rcases List.mem_cons.mp hr' with rfl | h0
          · exact ⟨rfl, "g", 10, rfl⟩
          · exact absurd h0 (by simp))⟩
